import Mathlib

/-!
# browser-use-go: session/tab tracker and element locator

A shallow embedding of `pkg/browser/context.go`.  The browser driver
(playwright) and the packages `internals/dom` and `internals/utils` are not
part of the embedded file: their values enter as explicit arguments, and the
tracker state that the Go methods mutate through `bc` is passed and returned
explicitly.
-/

namespace BrowserUse

/-! ## Configuration -/

/-- A value stored in a `map[string]interface{}` configuration. -/
inductive ConfigValue where
  | null
  | bool (b : Bool)
  | int (i : Int)
  | str (s : String)
  deriving DecidableEq, Repr

/-- The Go type `BrowserConfig`, a `map[string]interface{}`. -/
abbrev BrowserConfig := List (String × ConfigValue)

/-- The Go test `config[key] != nil`: the key is present and holds a non-nil value. -/
def configSet (config : BrowserConfig) (key : String) : Bool :=
  match List.lookup key config with
  | none => false
  | some ConfigValue.null => false
  | some _ => true

/-- Modelled from the spec: `utils.GetDefaultValue` (package `internals/utils`, not in
`pkg/browser/context.go`), at type `bool`: the value the configuration holds under `key`
when it is a boolean, the supplied default otherwise ("unless explicitly requested"). -/
def GetDefaultValue (config : BrowserConfig) (key : String) (defaultValue : Bool) : Bool :=
  match List.lookup key config with
  | some (ConfigValue.bool b) => b
  | _ => defaultValue

/-! ## DOM nodes -/

mutual
/-- The Go struct `dom.DOMElementNode`, with the fields `context.go` reads: the tag, the
xpath, the attribute map, the owned children and the parent back-reference. -/
inductive DOMElementNode where
  | mk (TagName : String) (Xpath : String) (Attributes : List (String × String))
       (Children : List DOMBaseNode) (Parent : Option DOMElementNode)
/-- The Go interface `dom.DOMBaseNode`: a text node or an element node. -/
inductive DOMBaseNode where
  | text (Text : String)
  | element (node : DOMElementNode)
end

namespace DOMElementNode

def TagName : DOMElementNode → String
  | mk t _ _ _ _ => t

def Xpath : DOMElementNode → String
  | mk _ x _ _ _ => x

def Attributes : DOMElementNode → List (String × String)
  | mk _ _ a _ _ => a

def Children : DOMElementNode → List DOMBaseNode
  | mk _ _ _ c _ => c

def Parent : DOMElementNode → Option DOMElementNode
  | mk _ _ _ _ p => p

end DOMElementNode

/-- Indexing a Go `map[string]string`: the stored value, or the empty string. -/
def attrValue (attributes : List (String × String)) (key : String) : String :=
  (List.lookup key attributes).getD ""

/-- The test `IsFileUploader` applies to the current element. -/
def isUploaderTag (tagName : String) (attributes : List (String × String)) : Bool :=
  tagName == "input" &&
    (attrValue attributes "type" == "file" || attrValue attributes "accept" != "")

mutual
/-- Method `BrowserContext.IsFileUploader` on a non-nil element. -/
def IsFileUploader : DOMElementNode → Int → Int → Bool
  | DOMElementNode.mk tagName _ attributes children _, maxDepth, currentDepth =>
    if currentDepth > maxDepth then false
    else if isUploaderTag tagName attributes then true
    else if currentDepth < maxDepth then
      IsFileUploaderChildren children maxDepth (currentDepth + 1)
    else false
/-- The loop of `IsFileUploader` over `element.Children`: text nodes fail the type
assertion and are skipped, the first element child that is an uploader ends the loop. -/
def IsFileUploaderChildren : List DOMBaseNode → Int → Int → Bool
  | [], _, _ => false
  | DOMBaseNode.text _ :: rest, maxDepth, depth => IsFileUploaderChildren rest maxDepth depth
  | DOMBaseNode.element child :: rest, maxDepth, depth =>
    if IsFileUploader child maxDepth depth then true
    else IsFileUploaderChildren rest maxDepth depth
end

/-- Specification side of `IsFileUploader`: `ElementAtDepth e d x` holds when `x` is an
element node reached from `e` by descending `d` times through element children. -/
inductive ElementAtDepth : DOMElementNode → Nat → DOMElementNode → Prop where
  | here (e : DOMElementNode) : ElementAtDepth e 0 e
  | child (e c x : DOMElementNode) (d : Nat) :
      DOMBaseNode.element c ∈ e.Children → ElementAtDepth c d x → ElementAtDepth e (d + 1) x

/-- Specification side of `IsFileUploader`: the element is a file input. -/
def IsFileInput (x : DOMElementNode) : Prop :=
  x.TagName = "input" ∧
    (attrValue x.Attributes "type" = "file" ∨ attrValue x.Attributes "accept" ≠ "")

instance (x : DOMElementNode) : Decidable (IsFileInput x) := by
  unfold IsFileInput
  infer_instance

/-! ## Driver handles -/

/-- A `playwright.Page` handle: its identity, its current URL and whether it is closed. -/
structure Page where
  handle : Nat
  url : String
  closed : Bool
  deriving DecidableEq, Repr

/-- A `playwright.FrameLocator`: a frame-scoped lookup made on the page
(`page.FrameLocator(selector)`) or inside another frame scope
(`frame.FrameLocator(selector)`). -/
inductive FrameLocator where
  | ofPage (page : Page) (selector : String)
  | ofFrame (scope : FrameLocator) (selector : String)
  deriving DecidableEq, Repr

/-- A `playwright.Locator`: an element lookup made on the page (`page.Locator(selector)`)
or inside a frame scope (`frame.Locator(selector)`). -/
inductive Locator where
  | ofPage (page : Page) (selector : String)
  | ofFrame (scope : FrameLocator) (selector : String)
  deriving DecidableEq, Repr

namespace FrameLocator

/-- The page a frame scope is rooted in. -/
def page : FrameLocator → Page
  | ofPage p _ => p
  | ofFrame scope _ => scope.page

/-- The frame selectors of a frame scope, outermost frame first. -/
def frameSelectors : FrameLocator → List String
  | ofPage _ s => [s]
  | ofFrame scope s => scope.frameSelectors ++ [s]

end FrameLocator

namespace Locator

/-- The page a locator is rooted in. -/
def page : Locator → Page
  | ofPage p _ => p
  | ofFrame scope _ => scope.page

/-- The frame selectors a locator passes through, outermost frame first. -/
def frameSelectors : Locator → List String
  | ofPage _ _ => []
  | ofFrame scope _ => scope.frameSelectors

/-- The selector a locator evaluates in its innermost scope. -/
def selector : Locator → String
  | ofPage _ s => s
  | ofFrame _ s => s

end Locator

/-- A `*dom.DOMElementNode` held by a snapshot: the address of a heap element.  `GetState`
and `GetDomElementByIndex` handle elements only through such references. -/
abbrev DOMElementRef := Nat

/-- The field `IsNew *bool` of every heap element: `none` is the nil pointer. -/
abbrev IsNewStore := DOMElementRef → Option Bool

/-- The Go type `dom.SelectorMap`, a `map[int]*DOMElementNode`.  Indexing is the only
operation used, so an entry holding a nil pointer is the same as no entry. -/
abbrev SelectorMap := List (Int × DOMElementRef)

/-- Modelled from the spec: `dom.ClickableElementProcessor` (package `internals/dom`, not
in `pkg/browser/context.go`).  `GetClickableElements` lists the interactive elements of a
tree and `HashDomElement` is a deterministic function of an element's tag name, stable
attributes and xpath, none of which `GetState` writes. -/
structure ClickableElementProcessor where
  GetClickableElements : DOMElementRef → List DOMElementRef
  HashDomElement : DOMElementRef → String

/-- Modelled from the spec: `ClickableElementProcessor.GetClickableElementsHashes`
(package `internals/dom`): one hash per interactive element of the tree. -/
def ClickableElementProcessor.GetClickableElementsHashes
    (processor : ClickableElementProcessor) (tree : DOMElementRef) : List String :=
  (processor.GetClickableElements tree).map processor.HashDomElement

/-- The Go struct `TabInfo`. -/
structure TabInfo where
  PageId : Int
  Url : String
  Title : String
  ParentPageId : Option Int
  deriving DecidableEq, Repr

/-- The Go struct `BrowserState`, the snapshot `GetState` returns. -/
structure BrowserState where
  ElementTree : DOMElementRef
  SelectorMap : Option SelectorMap
  Url : String
  Title : String
  Tabs : List TabInfo
  Screenshot : Option String
  PixelAbove : Int
  PixelBelow : Int
  BrowserErrors : List String
  deriving DecidableEq, Repr

structure CachedStateClickableElementsHashes where
  Url : String
  Hashes : List String
  deriving DecidableEq, Repr

/-- The Go struct `BrowserSession`; `Pages` is what `session.Context.Pages()` returns. -/
structure BrowserSession where
  ActiveTab : Option Page
  Pages : List Page
  CachedState : Option BrowserState
  CachedStateClickableElementsHashes : Option CachedStateClickableElementsHashes
  deriving DecidableEq, Repr

/-- State of the browser context. -/
structure BrowserContextState where
  TargetId : Option String
  deriving DecidableEq, Repr

/-- The Go struct `Browser`, of which `context.go` reads the configuration only. -/
structure Browser where
  Config : BrowserConfig
  deriving DecidableEq, Repr

/-- The Go struct `BrowserContext`; `pageEventHandler` records whether the handler field
is non-nil. -/
structure BrowserContext where
  ContextId : String
  Config : BrowserConfig
  Browser : Browser
  Session : Option BrowserSession
  State : BrowserContextState
  ActiveTab : Option Page
  pageEventHandler : Bool
  deriving DecidableEq, Repr

/-- The errors `context.go` builds: `&BrowserError{Message}`, `NewURLNotAllowedError(url)`
and `fmt.Errorf(...)`. -/
inductive GoError where
  | browserError (Message : String)
  | urlNotAllowed (url : String)
  | errorf (message : String)
  deriving DecidableEq, Repr

/-- One entry of the `targetInfos` list of `Target.getTargets`: the `url` and `targetId`
fields, `none` when the field is missing or is not a string. -/
structure CdpTarget where
  url : Option String
  targetId : Option String
  deriving DecidableEq, Repr

/-! ## Snapshot and index resolution -/

/-- The loop of `GetState` over the clickable elements of the new tree: each element's
`IsNew` is set to whether its hash is missing from the cached hashes. -/
def markNewElements (processor : ClickableElementProcessor) (cachedHashes : List String) :
    List DOMElementRef → IsNewStore → IsNewStore
  | [], isNew => isNew
  | domElement :: rest, isNew =>
    markNewElements processor cachedHashes rest
      (Function.update isNew domElement
        (some (!(cachedHashes.contains (processor.HashDomElement domElement)))))

/-- Method `BrowserContext.GetState`, from the point where `session := bc.GetSession()`
and `updatedState := bc.getUpdatedState(page)` are at hand.  Returns the session as it is left,
the `IsNew` fields as they are left, and the returned snapshot. -/
def GetState (processor : ClickableElementProcessor) (session : BrowserSession)
    (isNew : IsNewStore) (updatedState : BrowserState) (cacheClickableElementsHashes : Bool) :
    BrowserSession × IsNewStore × BrowserState :=
  if cacheClickableElementsHashes then
    let isNew1 :=
      match session.CachedStateClickableElementsHashes with
      | some cached =>
        if cached.Url == updatedState.Url then
          markNewElements processor cached.Hashes
            (processor.GetClickableElements updatedState.ElementTree) isNew
        else isNew
      | none => isNew
    let session1 := { session with
      CachedStateClickableElementsHashes := some {
        Url := updatedState.Url
        Hashes := processor.GetClickableElementsHashes updatedState.ElementTree } }
    ({ session1 with CachedState := some updatedState }, isNew1, updatedState)
  else
    ({ session with CachedState := some updatedState }, isNew, updatedState)

/-- Method `BrowserContext.GetSelectorMap` on the session `bc.GetSession()` returns. -/
def GetSelectorMap (session : BrowserSession) : Option SelectorMap :=
  match session.CachedState with
  | none => none
  | some cachedState => cachedState.SelectorMap

/-- The message of the error `GetDomElementByIndex` returns (`%d` prints the index in
decimal). -/
def indexErrorMessage (index : Int) : String :=
  "element with index " ++ toString index ++
    " does not exist - retry or use alternative actions"

/-- Method `BrowserContext.GetDomElementByIndex` on the session `bc.GetSession()` returns: the
pair of the returned element and the returned error. -/
def GetDomElementByIndex (session : BrowserSession) (index : Int) :
    Option DOMElementRef × Option GoError :=
  match GetSelectorMap session with
  | none => (none, some (GoError.errorf (indexErrorMessage index)))
  | some selectorMap =>
    match List.lookup index selectorMap with
    | none => (none, some (GoError.errorf (indexErrorMessage index)))
    | some element => (some element, none)

/-! ## Element locator -/

/-- The first loop of `GetLocateElement`: the parents of the element, nearest first. -/
def collectParents : DOMElementNode → List DOMElementNode
  | DOMElementNode.mk _ _ _ _ none => []
  | DOMElementNode.mk _ _ _ _ (some parent) => parent :: collectParents parent

/-- One step of the loop of `GetLocateElement` over the iframe parents. -/
def enterFrame (currentPage : Page) (currentFrame : Option FrameLocator)
    (cssSelector : String) : Option FrameLocator :=
  match currentFrame with
  | some frame => some (FrameLocator.ofFrame frame cssSelector)
  | none => some (FrameLocator.ofPage currentPage cssSelector)

/-- Method `BrowserContext.GetLocateElement`.  `enhancedCss` is
`dom.EnhancedCssSelectorForElement` (package `internals/dom`) and `currentPage` is the page
`bc.GetCurrentPage()` returns. -/
def GetLocateElement (enhancedCss : DOMElementNode → Bool → String) (config : BrowserConfig)
    (currentPage : Page) (element : DOMElementNode) : Locator :=
  let parents := (collectParents element).reverse
  let iframes := parents.filter (fun item => item.TagName == "iframe")
  let includeDynamicAttributes := GetDefaultValue config "include_dynamic_attributes" true
  let currentFrame := iframes.foldl
    (fun currentFrame parent =>
      enterFrame currentPage currentFrame (enhancedCss parent includeDynamicAttributes))
    none
  let cssSelector := enhancedCss element includeDynamicAttributes
  match currentFrame with
  | some frame => Locator.ofFrame frame cssSelector
  | none => Locator.ofPage currentPage cssSelector

/-- Specification side of `GetLocateElement`: the proper ancestors of an element in
root-to-element order. -/
def ancestorsRootFirst : DOMElementNode → List DOMElementNode
  | DOMElementNode.mk _ _ _ _ none => []
  | DOMElementNode.mk _ _ _ _ (some parent) => ancestorsRootFirst parent ++ [parent]

/-- Specification side of `GetLocateElement`: the proper ancestors that are frame
boundaries, outermost first. -/
def iframeAncestors (element : DOMElementNode) : List DOMElementNode :=
  (ancestorsRootFirst element).filter (fun a => a.TagName == "iframe")

/-- The driver's `Locator.Click`: the error it returns, `none` when the click succeeds. -/
abbrev ClickDriver := Locator → Option String

/-- Method `BrowserContext.PerformClick`: runs the click callback and returns a nil
download path.  The callback has type `func()`: whatever the click reports stays inside
it. -/
def PerformClick (clickFunc : Unit → Unit) : Option String :=
  match clickFunc () with
  | () => none

/-- Method `BrowserContext.ClickElementNode`: the pair of the returned download path and
the returned error.  The locator comes from `GetLocateElement`, which builds it without
consulting the page, so the nil test sees a locator; the error `Click` returns is dropped
inside the callback handed to `PerformClick`. -/
def ClickElementNode (enhancedCss : DOMElementNode → Bool → String) (config : BrowserConfig)
    (click : ClickDriver) (page : Page) (elementNode : DOMElementNode) :
    Option String × Option GoError :=
  let elementLocator : Option Locator :=
    some (GetLocateElement enhancedCss config page elementNode)
  match elementLocator with
  | none =>
    (none, some (GoError.browserError ("Element: " ++ elementNode.Xpath ++ " not found")))
  | some locator =>
    (PerformClick (fun _ => match click locator with | _ => ()), none)

/-! ## Tab switching -/

/-- Method `BrowserContext.isUrlAllowed`. -/
def isUrlAllowed (_url : String) : Bool := true

/-- The value `cdpSession.Send("Target.getTargets", ...)` hands back as `interface{}`,
seen through the two assertions `getCdpTargets` applies to it: a
`map[string]interface{}` whose "targetInfos" entry is a `[]map[string]interface{}`, or
any other value, on which one of the assertions fails. -/
inductive CdpResult where
  | targetInfos (targets : List CdpTarget)
  | other
  deriving DecidableEq, Repr

/-- Method `BrowserContext.getCdpTargets`.  `cdpReply` is what the debugging session of the
first page answers: `none` when opening the session, the request or the detach returns an
error, the result of the request otherwise.  The returned `none` is the run-time panic of
the unchecked assertions
`result.(map[string]interface{})["targetInfos"].([]map[string]interface{})`. -/
def getCdpTargets (cdpReply : Option CdpResult) (bc : BrowserContext) :
    Option (List CdpTarget) :=
  match bc.Session with
  | none => some []
  | some session =>
    if !(configSet bc.Browser.Config "cdp_url") then some []
    else if session.Pages.length == 0 then some []
    else
      match cdpReply with
      | none => some []
      | some (CdpResult.targetInfos targets) => some targets
      | some CdpResult.other => none

/-- The loop of `SwitchToTab` over the targets: the `targetId` of the first target whose
`url` is the page URL and whose `targetId` is a string. -/
def findTargetId (pageUrl : String) : List CdpTarget → Option String
  | [] => none
  | target :: rest =>
    if target.url == some pageUrl then
      match target.targetId with
      | some targetId => some targetId
      | none => findTargetId pageUrl rest
    else findTargetId pageUrl rest

/-- The loop `for pageId < 0 { pageId += len(pages) }` of `SwitchToTab`, run for at most
`fuel` evaluations of its condition: `none` when it is still running after that. -/
def wrapOrdinal (len : Int) : Nat → Int → Option Int
  | 0, _ => none
  | fuel + 1, pageId =>
    if pageId < 0 then wrapOrdinal len fuel (pageId + len) else some pageId

/-- How a call of `SwitchToTab` ends. -/
inductive SwitchOutcome where
  | returned (bc : BrowserContext) (err : Option GoError)
  | indexOutOfRange
  | assertionPanic
  | outOfFuel
  | noSession
  deriving DecidableEq, Repr

/-- Method `BrowserContext.SwitchToTab`.  `noSession` stands for a tracker without a
session, for which `GetSession` would first set one up; `outOfFuel` for a wrap-around loop
that is still running after `fuel` evaluations of its condition; `indexOutOfRange` for the
run-time panic of `pages[pageId]`; `assertionPanic` for the run-time panic inside
`getCdpTargets`.  `pageId` is a Go `int`; the loop only adds a
non-negative length to a negative value, so no addition overflows and `Int` is exact. -/
def SwitchToTab (cdpReply : Option CdpResult) (bc : BrowserContext) (pageId : Int)
    (fuel : Nat) : SwitchOutcome :=
  match bc.Session with
  | none => SwitchOutcome.noSession
  | some session =>
    let pages := session.Pages
    if pageId ≥ (pages.length : Int) then
      SwitchOutcome.returned bc
        (some (GoError.browserError ("No tab found with page_id: " ++ toString pageId)))
    else
      match wrapOrdinal (pages.length : Int) fuel pageId with
      | none => SwitchOutcome.outOfFuel
      | some wrapped =>
        match pages.get? wrapped.toNat with
        | none => SwitchOutcome.indexOutOfRange
        | some page =>
          if !(isUrlAllowed page.url) then
            SwitchOutcome.returned bc (some (GoError.urlNotAllowed page.url))
          else if configSet bc.Browser.Config "cdp_url" then
            match getCdpTargets cdpReply bc with
            | none => SwitchOutcome.assertionPanic
            | some targets =>
              let state :=
                match findTargetId page.url targets with
                | some targetId => { bc.State with TargetId := some targetId }
                | none => bc.State
              SwitchOutcome.returned { bc with State := state, ActiveTab := some page } none
          else
            SwitchOutcome.returned { bc with ActiveTab := some page } none

/-- The frame selectors of an optional frame scope. -/
def scopeSelectors : Option FrameLocator → List String
  | none => []
  | some frame => frame.frameSelectors

/-! ## Current page, new pages and closing -/

/-- Go's `strings.HasPrefix(s, p)`. -/
def startsWith (s p : String) : Bool := p.toList.isPrefixOf s.toList

/-- The test `getCurrentPage` and `onPage` apply to a page URL: it starts with neither
"chrome-extension://" nor "chrome://". -/
def nonExtensionUrl (url : String) : Bool :=
  !(startsWith url "chrome-extension://") && !(startsWith url "chrome://")

/-- The inner loop of `getCurrentPage`: the first page whose URL is the target's `url`. -/
def findPageByUrl (targetUrl : Option String) : List Page → Option Page
  | [] => none
  | page :: rest =>
    if some page.url == targetUrl then some page else findPageByUrl targetUrl rest

/-- The outer loop of `getCurrentPage`: over the targets whose `targetId` is the stored
one, the first page found by the inner loop. -/
def findTargetPage (targetId : String) (pages : List Page) : List CdpTarget → Option Page
  | [] => none
  | target :: rest =>
    if target.targetId == some targetId then
      match findPageByUrl target.url pages with
      | some page => some page
      | none => findTargetPage targetId pages rest
    else findTargetPage targetId pages rest

/-- How a call of `getCurrentPage` ends: with a page of the session, with the page a
successful `session.Context.NewPage()` opened, in the branch that sets up a new session
when `NewPage` fails, or in the run-time panic inside `getCdpTargets`. -/
inductive CurrentPageOutcome where
  | found (page : Page)
  | created (page : Page)
  | newSession
  | assertionPanic
  deriving DecidableEq, Repr

/-- The first block of `getCurrentPage`: with a remote endpoint configured and a stored
target id, the page the loops over targets and pages return, `some none` when the block
falls through, and `none` when `getCdpTargets` panics. -/
def trackedTargetPage (cdpReply : Option CdpResult) (bc : BrowserContext)
    (pages : List Page) : Option (Option Page) :=
  if configSet bc.Browser.Config "cdp_url" then
    match bc.State.TargetId with
    | some targetId =>
      match getCdpTargets cdpReply bc with
      | none => none
      | some targets => some (findTargetPage targetId pages targets)
    | none => some none
  else some none

/-- The second block of `getCurrentPage`: the active tab when it is set, not closed and
among the pages of the session. -/
def usableActiveTab (bc : BrowserContext) (session : BrowserSession) : Option Page :=
  match bc.ActiveTab with
  | some tab => if !tab.closed && session.Pages.contains tab then some tab else none
  | none => none

/-- Method `BrowserContext.getCurrentPage`.  `newPage` is what `session.Context.NewPage()`
answers when it is called, `none` for an error. -/
def getCurrentPage (cdpReply : Option CdpResult) (newPage : Option Page)
    (bc : BrowserContext) (session : BrowserSession) : CurrentPageOutcome :=
  let pages := session.Pages
  match trackedTargetPage cdpReply bc pages with
  | none => CurrentPageOutcome.assertionPanic
  | some (some page) => CurrentPageOutcome.found page
  | some none =>
    match usableActiveTab bc session with
    | some tab => CurrentPageOutcome.found tab
    | none =>
      let nonExtensionPages := pages.filter (fun page => nonExtensionUrl page.url)
      match nonExtensionPages.getLast? with
      | some page => CurrentPageOutcome.found page
      | none =>
        match newPage with
        | some page => CurrentPageOutcome.created page
        | none => CurrentPageOutcome.newSession

/-- The loop at the end of `initializeSession` ("Get target ID for the active page"): on
the first target whose `url` is the URL of the active page it stores
`playwright.String(activePage.URL())` and stops. -/
def storeTargetIdLoop (activeUrl : String) (stored : Option String) :
    List CdpTarget → Option String
  | [] => stored
  | target :: rest =>
    if target.url == some activeUrl then some activeUrl
    else storeTargetIdLoop activeUrl stored rest

/-- The block at the end of `initializeSession` that records the target of the page it
made active: the context state it leaves, `none` when `getCdpTargets` panics. -/
def storeInitialTargetId (cdpReply : Option CdpResult) (bc : BrowserContext)
    (activePage : Page) : Option BrowserContextState :=
  if configSet bc.Browser.Config "cdp_url" then
    match getCdpTargets cdpReply bc with
    | none => none
    | some targets =>
      some { bc.State with
        TargetId := storeTargetIdLoop activePage.url bc.State.TargetId targets }
  else some bc.State

/-- Specification side of `getCurrentPage`: remote-target tracking is active and `page` is
a page of the session whose URL is the URL of a listed target carrying the stored target
id. -/
def TrackedMatch (cdpReply : Option CdpResult) (bc : BrowserContext)
    (session : BrowserSession) (page : Page) : Prop :=
  configSet bc.Browser.Config "cdp_url" = true ∧
    ∃ targetId, bc.State.TargetId = some targetId ∧
      ∃ targets, getCdpTargets cdpReply bc = some targets ∧
        ∃ target ∈ targets,
          target.targetId = some targetId ∧ target.url = some page.url ∧
            page ∈ session.Pages

/-- Specification side of `getCurrentPage`: the previously active tab is set, not closed
and a member of the session's page list. -/
def ActiveTabUsable (bc : BrowserContext) (session : BrowserSession) (tab : Page) : Prop :=
  bc.ActiveTab = some tab ∧ tab.closed = false ∧ tab ∈ session.Pages

/-- Method `BrowserContext.onPage`: the tracker as it is left, and whether the page was
reloaded first.  `page.url` is the URL the page has after the wait for its load state. -/
def onPage (bc : BrowserContext) (page : Page) : BrowserContext × Bool :=
  let reloaded := configSet bc.Browser.Config "cdp_url"
  let bc1 := if nonExtensionUrl page.url then { bc with ActiveTab := some page } else bc
  let bc2 :=
    match bc1.Session with
    | some _ => { bc1 with State := { bc1.State with TargetId := none } }
    | none => bc1
  (bc2, reloaded)

/-- What a call of `Close` does to the driver: whether the page listener was removed and
whether `bc.Session.Context.Close()` was called. -/
structure CloseEffects where
  removedListener : Bool
  closedContext : Bool
  deriving DecidableEq, Repr

/-- The Go type assertion `bc.Config["keep_alive"].(bool)`: the pair `(keepAlive, ok)`. -/
def keepAliveAssertion (config : BrowserConfig) : Bool × Bool :=
  match List.lookup "keep_alive" config with
  | some (ConfigValue.bool keepAlive) => (keepAlive, true)
  | _ => (false, false)

/-- Method `BrowserContext.Close`.  The session's driver context is taken to be non-nil, as
every session `context.go` builds has one. -/
def Close (bc : BrowserContext) : BrowserContext × CloseEffects :=
  match bc.Session with
  | none => (bc, { removedListener := false, closedContext := false })
  | some _ =>
    let removedListener := bc.pageEventHandler
    let (keepAlive, ok) := keepAliveAssertion bc.Config
    let closedContext := (ok && !keepAlive) || !ok
    ({ bc with Session := none, ActiveTab := none, pageEventHandler := false },
      { removedListener := removedListener, closedContext := closedContext })

/-! ## Snapshot assembly -/

/-- The value a `page.Evaluate` call hands back as `interface{}`: a Go `int`, or anything
else. -/
inductive JsValue where
  | int (i : Int)
  | other
  deriving DecidableEq, Repr

/-- Go `int` arithmetic: the 64-bit two's complement value of an exact result. -/
def wrapInt64 (x : Int) : Int := (x + 2 ^ 63) % 2 ^ 64 - 2 ^ 63

/-- How a call of `GetScrollInfo` ends: with its three results, or in the run-time panic of
a failed `.(int)` assertion. -/
inductive ScrollOutcome where
  | returned (pixelsAbove pixelsBelow : Int) (err : Option String)
  | assertionPanic
  deriving DecidableEq, Repr

/-- Method `BrowserContext.GetScrollInfo`.  The three arguments are what the three
`page.Evaluate` calls answer, in the order `window.scrollY`, `window.innerHeight`,
`document.documentElement.scrollHeight`. -/
def GetScrollInfo (scrollY viewportHeight totalHeight : Except String JsValue) :
    ScrollOutcome :=
  match scrollY with
  | Except.error err => ScrollOutcome.returned 0 0 (some err)
  | Except.ok scrollY =>
    match viewportHeight with
    | Except.error err => ScrollOutcome.returned 0 0 (some err)
    | Except.ok viewportHeight =>
      match totalHeight with
      | Except.error err => ScrollOutcome.returned 0 0 (some err)
      | Except.ok totalHeight =>
        match scrollY, totalHeight, viewportHeight with
        | JsValue.int s, JsValue.int t, JsValue.int v =>
          ScrollOutcome.returned s (wrapInt64 (t - wrapInt64 (s + v))) none
        | _, _, _ => ScrollOutcome.assertionPanic

/-- What the driver answers to the calls `TakeScreenshot` and `GetScrollInfo` make on the
page: an error or `none` for `BringToFront` and `WaitForLoadState`, the image bytes or an
error for `Screenshot`, a value or an error for each `Evaluate`. -/
structure DriverReplies where
  bringToFront : Option String
  waitForLoadState : Option String
  screenshot : Except String (List Nat)
  scrollY : Except String JsValue
  innerHeight : Except String JsValue
  scrollHeight : Except String JsValue

/-- Method `BrowserContext.TakeScreenshot`: the returned string pointer and the returned
error.  `encode` is `base64.StdEncoding.EncodeToString`. -/
def TakeScreenshot (encode : List Nat → String) (driver : DriverReplies) :
    Option String × Option String :=
  match driver.bringToFront with
  | some err => (none, some err)
  | none =>
    match driver.waitForLoadState with
    | some err => (none, some err)
    | none =>
      match driver.screenshot with
      | Except.error err => (none, some err)
      | Except.ok screenshot => (some (encode screenshot), none)

/-- The loop of `GetTabsInfo` from position `pageId` on. -/
def tabsInfoFrom (title : Page → String) : Nat → List Page → List TabInfo
  | _, [] => []
  | pageId, page :: rest =>
    { PageId := pageId, Url := page.url, Title := title page, ParentPageId := none }
      :: tabsInfoFrom title (pageId + 1) rest

/-- Method `BrowserContext.GetTabsInfo` on the session `bc.GetSession()` returns; `title` is
the string `page.Title()` answers. -/
def GetTabsInfo (title : Page → String) (session : BrowserSession) : List TabInfo :=
  tabsInfoFrom title 0 session.Pages

/-- The Go struct `dom.DOMState`, the result of the tree build. -/
structure DOMState where
  ElementTree : DOMElementRef
  SelectorMap : Option SelectorMap
  deriving DecidableEq, Repr

/-- Modelled from the spec: the pair `(content, err)` that
`dom.DomService.GetClickableElements` returns (package `internals/dom`, not in
`pkg/browser/context.go`): `content` is a pointer to the built tree and selector map,
nil when the build handed nothing back, and `err` is the error of a failed build. -/
structure TreeBuild where
  content : Option DOMState
  err : Option String
  deriving DecidableEq, Repr

/-- How a call of `getUpdatedState` ends: with the snapshot it returns, in the run-time
panic of a failed `.(int)` assertion inside `GetScrollInfo`, or in the run-time panic of
reading `content.ElementTree` through a nil `content`. -/
inductive SnapshotOutcome where
  | returned (state : BrowserState)
  | assertionPanic
  | nilDereference
  deriving DecidableEq, Repr

/-- Method `BrowserContext.getUpdatedState`.  The three errors are only logged; the scroll
reads come before the snapshot literal that reads through `content`. -/
def getUpdatedState (encode : List Nat → String) (title : Page → String)
    (build : TreeBuild) (driver : DriverReplies) (session : BrowserSession) (page : Page) :
    SnapshotOutcome :=
  let content := build.content
  let tabsInfo := GetTabsInfo title session
  let screenshot := (TakeScreenshot encode driver).1
  match GetScrollInfo driver.scrollY driver.innerHeight driver.scrollHeight with
  | ScrollOutcome.assertionPanic => SnapshotOutcome.assertionPanic
  | ScrollOutcome.returned pixelsAbove pixelsBelow _ =>
    match content with
    | none => SnapshotOutcome.nilDereference
    | some content =>
      SnapshotOutcome.returned
        { ElementTree := content.ElementTree
          SelectorMap := content.SelectorMap
          Url := page.url
          Title := title page
          Tabs := tabsInfo
          Screenshot := screenshot
          PixelAbove := pixelsAbove
          PixelBelow := pixelsBelow
          BrowserErrors := [] }

/-! ## Sample values -/

/-- Three open pages. -/
def tab0 : Page := { handle := 0, url := "https://a.example/", closed := false }

def tab1 : Page := { handle := 1, url := "https://b.example/", closed := false }

def tab2 : Page := { handle := 2, url := "https://c.example/", closed := false }

/-- A session with three open tabs and nothing cached. -/
def threeTabSession : BrowserSession :=
  { ActiveTab := none, Pages := [tab0, tab1, tab2], CachedState := none,
    CachedStateClickableElementsHashes := none }

/-- A tracker holding `threeTabSession`, with no remote endpoint configured and the first
tab active. -/
def threeTabContext : BrowserContext :=
  { ContextId := "ctx", Config := [], Browser := { Config := [] },
    Session := some threeTabSession, State := { TargetId := none },
    ActiveTab := some tab0, pageEventHandler := false }

/-- An `<input type="file">` element. -/
def fileInput : DOMElementNode :=
  DOMElementNode.mk "input" "/html/body/div/div/input" [("type", "file")] [] none

/-- A container holding a text node and the file input. -/
def innerDiv : DOMElementNode :=
  DOMElementNode.mk "div" "/html/body/div/div" []
    [DOMBaseNode.text "upload", DOMBaseNode.element fileInput] none

/-- A container whose only file input lies two levels down. -/
def outerDiv : DOMElementNode :=
  DOMElementNode.mk "div" "/html/body/div" [] [DOMBaseNode.element innerDiv] none

/-- A document root. -/
def rootHtml : DOMElementNode := DOMElementNode.mk "html" "/html" [] [] none

/-- An iframe in the top-level document. -/
def outerFrame : DOMElementNode :=
  DOMElementNode.mk "iframe" "/html/iframe" [("id", "outer")] [] (some rootHtml)

/-- The body of the document inside `outerFrame`. -/
def frameBody : DOMElementNode :=
  DOMElementNode.mk "body" "/html/iframe/body" [] [] (some outerFrame)

/-- An iframe nested inside `outerFrame`. -/
def innerFrame : DOMElementNode :=
  DOMElementNode.mk "iframe" "/html/iframe/body/iframe" [("id", "inner")] []
    (some frameBody)

/-- A button nested two iframes deep. -/
def framedButton : DOMElementNode :=
  DOMElementNode.mk "button" "/html/iframe/body/iframe/button" [] [] (some innerFrame)

/-- A selector synthesizer whose output shows the flag it was called with. -/
def flagCss (element : DOMElementNode) (includeDynamicAttributes : Bool) : String :=
  if includeDynamicAttributes then element.TagName ++ "[dynamic]" else element.TagName

/-- A driver on which every click times out. -/
def failingClick : ClickDriver := fun _ => some "Timeout 1500ms exceeded."

/-- A processor for a tree with the two interactive elements 1 and 2. -/
def sampleProcessor : ClickableElementProcessor :=
  { GetClickableElements := fun _ => [1, 2]
    HashDomElement := fun element => if element = 1 then "hash-1" else "hash-2" }

/-- A snapshot of a page at URL A. -/
def snapshotA : BrowserState :=
  { ElementTree := 0, SelectorMap := some [(0, 1), (1, 2)], Url := "https://a.example/",
    Title := "A", Tabs := [], Screenshot := none, PixelAbove := 0, PixelBelow := 800,
    BrowserErrors := [] }

/-- A snapshot of a page at URL B. -/
def snapshotB : BrowserState :=
  { snapshotA with Url := "https://b.example/", Title := "B" }

/-- The hashes cached for URL A when only element 1 was present. -/
def cachedHashesA : CachedStateClickableElementsHashes :=
  { Url := "https://a.example/", Hashes := ["hash-1"] }

/-- A session holding `snapshotA` and `cachedHashesA`. -/
def cachedSession : BrowserSession :=
  { threeTabSession with
    CachedState := some snapshotA
    CachedStateClickableElementsHashes := some cachedHashesA }

/-- A heap in which no element has its `IsNew` field set. -/
def emptyStore : IsNewStore := fun _ => none

/-- A tracker with a remote endpoint configured that tracks target "target-b". -/
def cdpContext : BrowserContext :=
  { threeTabContext with
    Browser := { Config := [("cdp_url", ConfigValue.str "ws://127.0.0.1:9222")] }
    State := { TargetId := some "target-b" } }

/-- The targets the endpoint lists: the page at the URL of `tab1` is "target-b". -/
def cdpTargets : List CdpTarget :=
  [{ url := some "https://a.example/", targetId := some "target-a" },
   { url := some "https://b.example/", targetId := some "target-b" }]

/-- A tracker holding a session, with `keep_alive` set and a page listener attached. -/
def keepAliveContext : BrowserContext :=
  { threeTabContext with
    Config := [("keep_alive", ConfigValue.bool true)]
    pageEventHandler := true }

/-- A tracker with a remote endpoint configured and a stored target id, holding no
session. -/
def detachedCdpContext : BrowserContext :=
  { cdpContext with Session := none }

/-- A browser-internal page. -/
def chromeTab : Page := { handle := 3, url := "chrome://newtab/", closed := false }

/-- Driver replies for a page scrolled to the top, 600 pixels high in the viewport and
1400 pixels high in all, on which the screenshot fails. -/
def failingScreenshotDriver : DriverReplies :=
  { bringToFront := none, waitForLoadState := none,
    screenshot := Except.error "Target closed",
    scrollY := Except.ok (JsValue.int 0), innerHeight := Except.ok (JsValue.int 600),
    scrollHeight := Except.ok (JsValue.int 1400) }

/-- Driver replies for a page on which reading the viewport height fails. -/
def failingScrollDriver : DriverReplies :=
  { bringToFront := none, waitForLoadState := none,
    screenshot := Except.ok [137, 80, 78, 71],
    scrollY := Except.ok (JsValue.int 0), innerHeight := Except.error "Execution context destroyed",
    scrollHeight := Except.ok (JsValue.int 1400) }

/-- A tree build that failed and handed back a nil content. -/
def failedBuild : TreeBuild :=
  { content := none, err := some "build failed" }

/-- A tree build that succeeded. -/
def completeBuild : TreeBuild :=
  { content := some { ElementTree := 0, SelectorMap := some [(0, 1), (1, 2)] }, err := none }

/-- Driver replies for a page whose screenshot fails and whose `window.scrollY` is not an
integer, so that `Evaluate` does not hand back a Go `int`. -/
def fractionalScrollDriver : DriverReplies :=
  { bringToFront := none, waitForLoadState := none,
    screenshot := Except.error "Target closed",
    scrollY := Except.ok JsValue.other, innerHeight := Except.ok (JsValue.int 600),
    scrollHeight := Except.ok (JsValue.int 1400) }

/-- A stand-in for `base64.StdEncoding.EncodeToString`. -/
def sampleEncode (bytes : List Nat) : String := toString bytes.length

/-- A stand-in for `page.Title()`. -/
def sampleTitle (page : Page) : String := "title of " ++ page.url

/-- A tracker whose session has no open tab. -/
def noTabContext : BrowserContext :=
  { threeTabContext with
    Session := some { threeTabSession with Pages := [] }
    ActiveTab := none }

/-- A tracker with a remote endpoint configured and no target id stored yet. -/
def untrackedCdpContext : BrowserContext :=
  { cdpContext with State := { TargetId := none } }

/-- Driver replies for a page on which every call succeeds. -/
def healthyDriver : DriverReplies :=
  { bringToFront := none, waitForLoadState := none,
    screenshot := Except.ok [137, 80, 78, 71],
    scrollY := Except.ok (JsValue.int 0), innerHeight := Except.ok (JsValue.int 600),
    scrollHeight := Except.ok (JsValue.int 1400) }

/-! # Theorems -/

/-! ## Tab switching -/

theorem wrapOrdinal_of_nonneg (len k : Int) (fuel : Nat) (h : 0 ≤ k) :
    wrapOrdinal len (fuel + 1) k = some k := by
  simp [wrapOrdinal, not_lt.mpr h]

theorem wrapOrdinal_of_neg (len : Int) (hlen : 1 ≤ len) :
    ∀ (fuel : Nat) (k : Int), k < 0 → (-k).toNat + 1 ≤ fuel →
      wrapOrdinal len fuel k = some (k % len) := by
  intro fuel
  induction fuel with
  | zero => intro k _ hf; omega
  | succ f ih =>
    intro k hk hf
    rw [wrapOrdinal, if_pos hk]
    by_cases h : k + len < 0
    · rw [ih (k + len) h (by omega), Int.add_emod_self]
    · have hf1 : 1 ≤ f := by omega
      obtain ⟨g, rfl⟩ : ∃ g, f = g + 1 := ⟨f - 1, by omega⟩
      rw [wrapOrdinal_of_nonneg len (k + len) g (by omega)]
      have h1 : (k + len) % len = k + len := Int.emod_eq_of_lt (by omega) (by omega)
      rw [Int.add_emod_self] at h1
      rw [h1]

/-- Unless the reply is a value the assertions reject, `getCdpTargets` returns a list. -/
theorem getCdpTargets_of_typed (cdpReply : Option CdpResult) (bc : BrowserContext)
    (h : cdpReply ≠ some CdpResult.other) :
    ∃ targets, getCdpTargets cdpReply bc = some targets := by
  unfold getCdpTargets
  cases bc.Session with
  | none => exact ⟨_, rfl⟩
  | some session =>
    simp only
    split
    · exact ⟨_, rfl⟩
    · split
      · exact ⟨_, rfl⟩
      · cases cdpReply with
        | none => exact ⟨_, rfl⟩
        | some result =>
          cases result with
          | targetInfos targets => exact ⟨_, rfl⟩
          | other => exact absurd rfl h

/-- With a remote endpoint configured, a session with an open page and a reply the
assertions reject, `getCdpTargets` panics. -/
theorem getCdpTargets_of_other (bc : BrowserContext) (session : BrowserSession)
    (hs : bc.Session = some session) (hc : configSet bc.Browser.Config "cdp_url" = true)
    (hp : session.Pages ≠ []) :
    getCdpTargets (some CdpResult.other) bc = none := by
  unfold getCdpTargets
  have hlen : (session.Pages.length == 0) = false := by
    cases hpages : session.Pages with
    | nil => exact absurd hpages hp
    | cons p rest => rfl
  simp only [hs, hc, hlen, Bool.not_true, Bool.false_eq_true, if_false]

/-- When the wrap-around loop ends at a position inside the tab list and the target
enumeration does not panic, `SwitchToTab` returns without error and the tab at that
position is active. -/
theorem switchToTab_of_wrap (cdpReply : Option CdpResult) (bc : BrowserContext)
    (session : BrowserSession) (k w : Int) (fuel : Nat)
    (hs : bc.Session = some session) (hk : k < (session.Pages.length : Int))
    (hw : wrapOrdinal (session.Pages.length : Int) fuel k = some w)
    (h0 : 0 ≤ w) (h1 : w < (session.Pages.length : Int))
    (hcdp : configSet bc.Browser.Config "cdp_url" = true → cdpReply ≠ some CdpResult.other) :
    ∃ bc1 page, SwitchToTab cdpReply bc k fuel = SwitchOutcome.returned bc1 none ∧
      bc1.ActiveTab = some page ∧ session.Pages.get? w.toNat = some page := by
  have hlt : w.toNat < session.Pages.length := by omega
  obtain ⟨page, hpage⟩ : ∃ page, session.Pages.get? w.toNat = some page :=
    ⟨_, List.get?_eq_get hlt⟩
  unfold SwitchToTab
  simp only [hs, ge_iff_le, not_le.mpr hk, if_false, hw, hpage, isUrlAllowed, Bool.not_true,
    Bool.false_eq_true]
  by_cases hc : configSet bc.Browser.Config "cdp_url" = true
  · obtain ⟨targets, ht⟩ := getCdpTargets_of_typed cdpReply bc (hcdp hc)
    simp only [hc, if_true, ht]
    exact ⟨_, page, rfl, rfl, rfl⟩
  · simp only [hc, if_false]
    exact ⟨_, page, rfl, rfl, rfl⟩

/-- When the wrap-around loop ends at a position inside the tab list, a remote endpoint is
configured and the reply is a value the assertions reject, `SwitchToTab` panics. -/
theorem switchToTab_of_wrap_other (bc : BrowserContext)
    (session : BrowserSession) (k w : Int) (fuel : Nat)
    (hs : bc.Session = some session) (hk : k < (session.Pages.length : Int))
    (hw : wrapOrdinal (session.Pages.length : Int) fuel k = some w)
    (h0 : 0 ≤ w) (h1 : w < (session.Pages.length : Int))
    (hc : configSet bc.Browser.Config "cdp_url" = true) :
    SwitchToTab (some CdpResult.other) bc k fuel = SwitchOutcome.assertionPanic := by
  have hlt : w.toNat < session.Pages.length := by omega
  obtain ⟨page, hpage⟩ : ∃ page, session.Pages.get? w.toNat = some page :=
    ⟨_, List.get?_eq_get hlt⟩
  have hne : session.Pages ≠ [] := by
    intro h
    rw [h] at hlt
    exact absurd hlt (Nat.not_lt_zero _)
  unfold SwitchToTab
  simp only [hs, ge_iff_le, not_le.mpr hk, if_false, hw, hpage, isUrlAllowed, Bool.not_true,
    Bool.false_eq_true, hc, if_true, getCdpTargets_of_other bc session hs hc hne]

/-- In a session with `n ≥ 1` open tabs, for every ordinal `k` with `-n ≤ k < n`, when the
target enumeration does not panic, `SwitchToTab k` returns (two evaluations of the loop
condition suffice) with no error, and the active tab is then the page at position `k` when
`k ≥ 0` and at position `k + n` when `k < 0`. -/
theorem switchToTab_in_range (cdpReply : Option CdpResult) (bc : BrowserContext)
    (session : BrowserSession) (k : Int) (fuel : Nat)
    (hs : bc.Session = some session) (_hn : 1 ≤ session.Pages.length)
    (hlo : -(session.Pages.length : Int) ≤ k) (hhi : k < (session.Pages.length : Int))
    (hfuel : 2 ≤ fuel)
    (hcdp : configSet bc.Browser.Config "cdp_url" = true → cdpReply ≠ some CdpResult.other) :
    ∃ bc1 page, SwitchToTab cdpReply bc k fuel = SwitchOutcome.returned bc1 none ∧
      bc1.ActiveTab = some page ∧
      session.Pages.get? (if 0 ≤ k then k else k + session.Pages.length).toNat
        = some page := by
  obtain ⟨g, rfl⟩ : ∃ g, fuel = g + 1 + 1 := ⟨fuel - 2, by omega⟩
  by_cases hk : 0 ≤ k
  · rw [if_pos hk]
    exact switchToTab_of_wrap cdpReply bc session k k (g + 1 + 1) hs hhi
      (wrapOrdinal_of_nonneg _ k (g + 1) hk) hk hhi hcdp
  · rw [if_neg hk]
    refine switchToTab_of_wrap cdpReply bc session k (k + session.Pages.length) (g + 1 + 1)
      hs hhi ?_ (by omega) (by omega) hcdp
    rw [wrapOrdinal, if_pos (by omega)]
    exact wrapOrdinal_of_nonneg _ _ g (by omega)

/-- In a session with `n ≥ 1` open tabs, a remote endpoint configured and a reply the
assertions of `getCdpTargets` reject, `SwitchToTab k` panics for every ordinal `k` with
`-n ≤ k < n`, as soon as the loop has had two evaluations of its condition. -/
theorem switchToTab_in_range_other (bc : BrowserContext)
    (session : BrowserSession) (k : Int) (fuel : Nat)
    (hs : bc.Session = some session)
    (hlo : -(session.Pages.length : Int) ≤ k) (hhi : k < (session.Pages.length : Int))
    (hfuel : 2 ≤ fuel) (hc : configSet bc.Browser.Config "cdp_url" = true) :
    SwitchToTab (some CdpResult.other) bc k fuel = SwitchOutcome.assertionPanic := by
  obtain ⟨g, rfl⟩ : ∃ g, fuel = g + 1 + 1 := ⟨fuel - 2, by omega⟩
  by_cases hk : 0 ≤ k
  · exact switchToTab_of_wrap_other bc session k k (g + 1 + 1) hs hhi
      (wrapOrdinal_of_nonneg _ k (g + 1) hk) hk hhi hc
  · refine switchToTab_of_wrap_other bc session k (k + session.Pages.length) (g + 1 + 1)
      hs hhi ?_ (by omega) (by omega) hc
    rw [wrapOrdinal, if_pos (by omega)]
    exact wrapOrdinal_of_nonneg _ _ g (by omega)

/-- C1 at a failing input: on the three-tab session of a tracker with a `cdp_url`
configured, when the result of `Target.getTargets` is a value the assertions of
`getCdpTargets` reject, `SwitchToTab (-1)` panics once the loop has ended, and it returns
for no number of loop steps; the ordinal satisfies `-3 ≤ -1 < 3`. -/
theorem switchToTab_in_range_cdp_panic :
    (-(threeTabSession.Pages.length : Int) ≤ -1 ∧
      (-1 : Int) < (threeTabSession.Pages.length : Int)) ∧
    SwitchToTab (some CdpResult.other) cdpContext (-1) 2 = SwitchOutcome.assertionPanic ∧
    ∀ (fuel : Nat) (bc1 : BrowserContext) (err : Option GoError),
      SwitchToTab (some CdpResult.other) cdpContext (-1) fuel
        ≠ SwitchOutcome.returned bc1 err := by
  refine ⟨by decide, by decide, ?_⟩
  intro fuel bc1 err
  by_cases hf : 2 ≤ fuel
  · rw [switchToTab_in_range_other cdpContext threeTabSession (-1) fuel rfl (by decide)
      (by decide) hf (by decide)]
    intro h
    cases h
  · have h01 : fuel = 0 ∨ fuel = 1 := by omega
    have h0 : SwitchToTab (some CdpResult.other) cdpContext (-1) 0
        = SwitchOutcome.outOfFuel := by decide
    have h1 : SwitchToTab (some CdpResult.other) cdpContext (-1) 1
        = SwitchOutcome.outOfFuel := by decide
    rcases h01 with rfl | rfl
    · rw [h0]
      intro h
      cases h
    · rw [h1]
      intro h
      cases h

/-- C2: in a session with `n` open tabs, for every ordinal `k ≥ n`, `SwitchToTab k` returns
the error "No tab found with page_id: k" and leaves the tracker, hence the active tab and
the stored remote target id, as it was. -/
theorem switchToTab_too_large (cdpReply : Option CdpResult) (bc : BrowserContext)
    (session : BrowserSession) (k : Int) (fuel : Nat)
    (hs : bc.Session = some session) (hk : (session.Pages.length : Int) ≤ k) :
    SwitchToTab cdpReply bc k fuel
      = SwitchOutcome.returned bc
          (some (GoError.browserError ("No tab found with page_id: " ++ toString k))) := by
  unfold SwitchToTab
  simp only [hs, ge_iff_le, hk, if_true]

/-- C2 at ordinal `5` on the three-tab session. -/
theorem switchToTab_too_large_witness :
    SwitchToTab none threeTabContext 5 0
      = SwitchOutcome.returned threeTabContext
          (some (GoError.browserError ("No tab found with page_id: " ++ toString (5 : Int)))) :=
  switchToTab_too_large none threeTabContext threeTabSession 5 0 rfl (by decide)

/-- C3 as stated fails: on the three-tab session the ordinal `-4`, which is below `-3`, is
switched to without error and the tab at index 2 becomes active. -/
theorem switchToTab_below_range_counterexample :
    ((threeTabSession.Pages.length : Int) ≥ 1 ∧
      (-4 : Int) < -(threeTabSession.Pages.length : Int)) ∧
    SwitchToTab none threeTabContext (-4) 3
      = SwitchOutcome.returned { threeTabContext with ActiveTab := some tab2 } none := by
  decide

/-- C3 amended: in a session with `n ≥ 1` open tabs, for every ordinal `k < -n`, when the
target enumeration does not panic (no `cdp_url` is configured, or the reply is not a value
the assertions of `getCdpTargets` reject), `SwitchToTab k` returns, once the wrap-around
loop has had `-k + 1` evaluations of its condition, with no error, and the active tab is
then the page at position `k mod n`: every ordinal below `n` selects a tab. -/
theorem switchToTab_below_range (cdpReply : Option CdpResult) (bc : BrowserContext)
    (session : BrowserSession) (k : Int) (fuel : Nat)
    (hs : bc.Session = some session) (hn : 1 ≤ session.Pages.length)
    (hk : k < -(session.Pages.length : Int)) (hfuel : (-k).toNat + 1 ≤ fuel)
    (hcdp : configSet bc.Browser.Config "cdp_url" = true → cdpReply ≠ some CdpResult.other) :
    ∃ bc1 page, SwitchToTab cdpReply bc k fuel = SwitchOutcome.returned bc1 none ∧
      bc1.ActiveTab = some page ∧
      session.Pages.get? (k % (session.Pages.length : Int)).toNat = some page := by
  have hlen : (1 : Int) ≤ (session.Pages.length : Int) := by exact_mod_cast hn
  exact switchToTab_of_wrap cdpReply bc session k (k % (session.Pages.length : Int)) fuel
    hs (by omega) (wrapOrdinal_of_neg _ hlen fuel k (by omega) hfuel)
    (Int.emod_nonneg _ (by omega)) (Int.emod_lt_of_pos _ (by omega)) hcdp

/-- C3 amended, at ordinal `-4` on the three-tab session, without a remote endpoint and
with one that lists its targets. -/
theorem switchToTab_below_range_witness :
    (∃ bc1 page, SwitchToTab none threeTabContext (-4) 5 = SwitchOutcome.returned bc1 none ∧
      bc1.ActiveTab = some page ∧
      threeTabSession.Pages.get? ((-4 : Int) % (threeTabSession.Pages.length : Int)).toNat
        = some page) ∧
    (∃ bc1 page, SwitchToTab (some (CdpResult.targetInfos cdpTargets)) cdpContext (-4) 5
        = SwitchOutcome.returned bc1 none ∧
      bc1.ActiveTab = some page ∧
      threeTabSession.Pages.get? ((-4 : Int) % (threeTabSession.Pages.length : Int)).toNat
        = some page) :=
  ⟨switchToTab_below_range none threeTabContext threeTabSession (-4) 5 rfl (by decide)
    (by decide) (by decide) (fun _ => by decide),
   switchToTab_below_range (some (CdpResult.targetInfos cdpTargets)) cdpContext
    threeTabSession (-4) 5 rfl (by decide) (by decide) (by decide) (fun _ => by decide)⟩

/-! ## File uploader detection -/

theorem isUploaderTag_iff (x : DOMElementNode) :
    isUploaderTag x.TagName x.Attributes = true ↔ IsFileInput x := by
  simp [isUploaderTag, IsFileInput]

theorem isFileUploaderChildren_iff (maxDepth depth : Int) (children : List DOMBaseNode) :
    IsFileUploaderChildren children maxDepth depth = true ↔
      ∃ c, DOMBaseNode.element c ∈ children ∧ IsFileUploader c maxDepth depth = true := by
  induction children with
  | nil => simp [IsFileUploaderChildren]
  | cons node rest ih =>
    cases node with
    | text t =>
      rw [IsFileUploaderChildren, ih]
      simp
    | element child =>
      rw [IsFileUploaderChildren]
      cases hv : IsFileUploader child maxDepth depth with
      | true =>
        rw [if_pos rfl]
        exact ⟨fun _ => ⟨child, List.mem_cons_self _ _, hv⟩, fun _ => rfl⟩
      | false =>
        rw [if_neg (by simp), ih]
        constructor
        · rintro ⟨c, hc, hu⟩
          exact ⟨c, List.mem_cons_of_mem _ hc, hu⟩
        · rintro ⟨c, hc, hu⟩
          rcases List.mem_cons.mp hc with heq | hmem
          · injection heq with heq
            subst heq
            rw [hv] at hu
            exact absurd hu (by simp)
          · exact ⟨c, hmem, hu⟩

theorem isFileUploader_from (maxDepth : Int) :
    ∀ (n : Nat) (currentDepth : Int) (e : DOMElementNode),
      (maxDepth + 1 - currentDepth).toNat = n →
      (IsFileUploader e maxDepth currentDepth = true ↔
        ∃ (d : Nat) (x : DOMElementNode),
          currentDepth + d ≤ maxDepth ∧ ElementAtDepth e d x ∧ IsFileInput x) := by
  intro n
  induction n with
  | zero =>
    intro c e hn
    have hc : c > maxDepth := by omega
    obtain ⟨tag, xp, attrs, children, parent⟩ := e
    rw [IsFileUploader, if_pos hc]
    simp only [Bool.false_eq_true, false_iff, not_exists, not_and]
    intro d x hd
    omega
  | succ n ih =>
    intro c e hn
    have hc : ¬ c > maxDepth := by omega
    obtain ⟨tag, xp, attrs, children, parent⟩ := e
    rw [IsFileUploader, if_neg hc]
    by_cases hu : isUploaderTag tag attrs = true
    · rw [if_pos hu]
      simp only [true_iff]
      refine ⟨0, _, by simpa using not_lt.mp hc, ElementAtDepth.here _, ?_⟩
      exact (isUploaderTag_iff _).mp hu
    · rw [if_neg hu]
      have hself : ¬ IsFileInput (DOMElementNode.mk tag xp attrs children parent) :=
        fun h => hu ((isUploaderTag_iff _).mpr h)
      by_cases hlt : c < maxDepth
      · rw [if_pos hlt, isFileUploaderChildren_iff]
        constructor
        · rintro ⟨child, hmem, hchild⟩
          obtain ⟨d, x, hd, hpath, hx⟩ := (ih (c + 1) child (by omega)).mp hchild
          refine ⟨d + 1, x, ?_, ElementAtDepth.child _ child x d hmem hpath, hx⟩
          push_cast
          omega
        · rintro ⟨d, x, hd, hpath, hx⟩
          cases hpath with
          | here => exact absurd hx hself
          | child _ child _ d1 hmem hrest =>
            refine ⟨child, hmem, (ih (c + 1) child (by omega)).mpr ⟨d1, x, ?_, hrest, hx⟩⟩
            push_cast at hd
            omega
      · rw [if_neg hlt]
        simp only [Bool.false_eq_true, false_iff, not_exists, not_and]
        intro d x hd hpath
        cases hpath with
        | here => exact hself
        | child _ child _ d1 hmem hrest =>
          push_cast at hd
          omega

/-- C4: `IsFileUploader e maxDepth 0` is true exactly when some element node at a depth
`d ≤ maxDepth` below `e`, reached through element children only, is an input with
`type = "file"` or a non-empty `accept`; so it is true for a file input at depth 0 and
false for a container whose only file inputs lie at depth `maxDepth + 1`. -/
theorem isFileUploader_depth_limited (e : DOMElementNode) (maxDepth : Int) :
    (IsFileUploader e maxDepth 0 = true ↔
      ∃ (d : Nat) (x : DOMElementNode),
        (d : Int) ≤ maxDepth ∧ ElementAtDepth e d x ∧ IsFileInput x) ∧
    (0 ≤ maxDepth → IsFileInput e → IsFileUploader e maxDepth 0 = true) ∧
    ((∀ (d : Nat) (x : DOMElementNode), ElementAtDepth e d x → IsFileInput x →
        (d : Int) = maxDepth + 1) → IsFileUploader e maxDepth 0 = false) := by
  have h := isFileUploader_from maxDepth _ 0 e rfl
  simp only [zero_add] at h
  refine ⟨h, ?_, ?_⟩
  · intro h0 he
    exact h.mpr ⟨0, e, by simpa using h0, ElementAtDepth.here e, he⟩
  · intro honly
    cases hv : IsFileUploader e maxDepth 0 with
    | false => rfl
    | true =>
      obtain ⟨d, x, hd, hpath, hx⟩ := h.mp hv
      have := honly d x hpath hx
      omega

theorem outerDiv_only_input (d : Nat) (x : DOMElementNode)
    (h : ElementAtDepth outerDiv d x) (hx : IsFileInput x) : (d : Int) = 1 + 1 := by
  cases h with
  | here => exact absurd hx (by decide)
  | child _ c _ d1 hmem h1 =>
    have hc : c = innerDiv := by simpa [outerDiv, DOMElementNode.Children] using hmem
    subst hc
    cases h1 with
    | here => exact absurd hx (by decide)
    | child _ c2 _ d2 hmem2 h2 =>
      have hc2 : c2 = fileInput := by simpa [innerDiv, DOMElementNode.Children] using hmem2
      subst hc2
      cases h2 with
      | here => rfl
      | child _ c3 _ d3 hmem3 h3 =>
        exact absurd hmem3 (by simp [fileInput, DOMElementNode.Children])

/-- C4 on the sample trees: the file input itself at depth limit 0, and the container
whose only file input is at depth 2 with depth limit 1. -/
theorem isFileUploader_depth_limited_witness :
    IsFileUploader fileInput 0 0 = true ∧ IsFileUploader outerDiv 1 0 = false :=
  ⟨(isFileUploader_depth_limited fileInput 0).2.1 (by decide) (by decide),
   (isFileUploader_depth_limited outerDiv 1).2.2 outerDiv_only_input⟩



/-! ## Snapshot diffing -/

theorem markNewElements_of_not_mem (processor : ClickableElementProcessor)
    (cachedHashes : List String) (e : DOMElementRef) :
    ∀ (elements : List DOMElementRef) (isNew : IsNewStore), e ∉ elements →
      markNewElements processor cachedHashes elements isNew e = isNew e := by
  intro elements
  induction elements with
  | nil => intro isNew _; rfl
  | cons d rest ih =>
    intro isNew hmem
    rw [markNewElements, ih _ (fun h => hmem (List.mem_cons_of_mem _ h))]
    exact Function.update_noteq (fun h => hmem (by rw [h]; exact List.mem_cons_self _ _)) _ _

theorem markNewElements_of_mem (processor : ClickableElementProcessor)
    (cachedHashes : List String) (e : DOMElementRef) :
    ∀ (elements : List DOMElementRef) (isNew : IsNewStore), e ∈ elements →
      markNewElements processor cachedHashes elements isNew e
        = some (!(cachedHashes.contains (processor.HashDomElement e))) := by
  intro elements
  induction elements with
  | nil => intro isNew h; exact absurd h (List.not_mem_nil _)
  | cons d rest ih =>
    intro isNew hmem
    rw [markNewElements]
    by_cases hrest : e ∈ rest
    · exact ih _ hrest
    · have hd : e = d := by
        rcases List.mem_cons.mp hmem with h | h
        · exact h
        · exact absurd h hrest
      subst hd
      rw [markNewElements_of_not_mem processor cachedHashes e rest _ hrest]
      exact Function.update_same _ _ _

/-- C5: when `GetState true` runs while the session holds a cached hash set whose URL is
the URL of the new snapshot, every clickable element of the new tree has its `IsNew` flag
set afterwards, and the flag is `true` exactly when the element's hash is not among the
cached hashes. -/
theorem getState_marks_new (processor : ClickableElementProcessor) (session : BrowserSession)
    (isNew : IsNewStore) (updatedState : BrowserState)
    (cached : CachedStateClickableElementsHashes) (e : DOMElementRef)
    (hcached : session.CachedStateClickableElementsHashes = some cached)
    (hurl : cached.Url = updatedState.Url)
    (he : e ∈ processor.GetClickableElements updatedState.ElementTree) :
    ((GetState processor session isNew updatedState true).2.1 e).isSome = true ∧
    ((GetState processor session isNew updatedState true).2.1 e = some true ↔
      processor.HashDomElement e ∉ cached.Hashes) := by
  have h : (GetState processor session isNew updatedState true).2.1 e
      = some (!(cached.Hashes.contains (processor.HashDomElement e))) := by
    simp only [GetState, if_true, hcached, hurl, beq_self_eq_true]
    exact markNewElements_of_mem processor cached.Hashes e _ isNew he
  rw [h]
  simp

/-- C5 on the sample session: element 2, whose hash was not cached for URL A, is flagged
as new. -/
theorem getState_marks_new_witness :
    ((GetState sampleProcessor cachedSession emptyStore snapshotA true).2.1 2).isSome = true ∧
    ((GetState sampleProcessor cachedSession emptyStore snapshotA true).2.1 2 = some true ↔
      sampleProcessor.HashDomElement 2 ∉ cachedHashesA.Hashes) :=
  getState_marks_new sampleProcessor cachedSession emptyStore snapshotA cachedHashesA 2
    rfl rfl (by decide)

/-- C6: when `GetState true` runs while the session holds no cached hash set, or one
whose URL differs from the URL of the new snapshot, no `IsNew` flag is written (every
element keeps the flag, set or unset, that it had), and the cached hash set becomes the one
with the new snapshot's URL and the hashes of the new tree's clickable elements. -/
theorem getState_skips_diff (processor : ClickableElementProcessor) (session : BrowserSession)
    (isNew : IsNewStore) (updatedState : BrowserState)
    (hmismatch : ∀ cached, session.CachedStateClickableElementsHashes = some cached →
      cached.Url ≠ updatedState.Url) :
    (GetState processor session isNew updatedState true).2.1 = isNew ∧
    (GetState processor session isNew updatedState true).1.CachedStateClickableElementsHashes
      = some { Url := updatedState.Url,
               Hashes := (processor.GetClickableElements updatedState.ElementTree).map
                 processor.HashDomElement } := by
  constructor
  · cases hc : session.CachedStateClickableElementsHashes with
    | none => simp [GetState, hc]
    | some cached =>
      have := hmismatch cached hc
      simp [GetState, hc, this]
  · simp [GetState, ClickableElementProcessor.GetClickableElementsHashes]

/-- C6 on the sample session: the hashes cached for URL A are not applied to the snapshot
of URL B. -/
theorem getState_skips_diff_witness :
    (GetState sampleProcessor cachedSession emptyStore snapshotB true).2.1 = emptyStore ∧
    (GetState sampleProcessor cachedSession emptyStore snapshotB
        true).1.CachedStateClickableElementsHashes
      = some { Url := snapshotB.Url,
               Hashes := (sampleProcessor.GetClickableElements snapshotB.ElementTree).map
                 sampleProcessor.HashDomElement } :=
  getState_skips_diff sampleProcessor cachedSession emptyStore snapshotB
    (fun cached h => by cases h; decide)

theorem collectParents_reverse :
    ∀ e : DOMElementNode, (collectParents e).reverse = ancestorsRootFirst e
  | DOMElementNode.mk _ _ _ _ none => by simp [collectParents, ancestorsRootFirst]
  | DOMElementNode.mk _ _ _ _ (some parent) => by
    simp [collectParents, ancestorsRootFirst, collectParents_reverse parent]

/-! ## Index resolution -/

/-- C7: `GetDomElementByIndex i` returns the element the cached snapshot's selector map
holds at `i`, with a nil error, when there is one; it returns an error exactly when there
is no cached snapshot, no selector map, or no element at `i` in the map, and then it
returns no element and the error message names the index. -/
theorem getDomElementByIndex_resolves (session : BrowserSession) (index : Int) :
    (∀ (state : BrowserState) (selectorMap : SelectorMap) (element : DOMElementRef),
      session.CachedState = some state → state.SelectorMap = some selectorMap →
      List.lookup index selectorMap = some element →
      GetDomElementByIndex session index = (some element, none)) ∧
    ((GetDomElementByIndex session index).2 ≠ none ↔
      (session.CachedState = none ∨
        ∃ state, session.CachedState = some state ∧
          (state.SelectorMap = none ∨
            ∃ selectorMap, state.SelectorMap = some selectorMap ∧
              List.lookup index selectorMap = none))) ∧
    ((GetDomElementByIndex session index).2 ≠ none →
      GetDomElementByIndex session index
        = (none, some (GoError.errorf ("element with index " ++ toString index ++
            " does not exist - retry or use alternative actions")))) := by
  refine ⟨?_, ?_, ?_⟩
  · intro state selectorMap element hs hm hl
    simp [GetDomElementByIndex, GetSelectorMap, hs, hm, hl]
  · cases hs : session.CachedState with
    | none => simp [GetDomElementByIndex, GetSelectorMap, hs]
    | some state =>
      cases hm : state.SelectorMap with
      | none => simp [GetDomElementByIndex, GetSelectorMap, hs, hm]
      | some selectorMap =>
        have hmap : GetSelectorMap session = some selectorMap := by
          simp only [GetSelectorMap, hs, hm]
        cases hl : List.lookup index selectorMap with
        | none =>
          constructor
          · intro _
            exact Or.inr ⟨state, rfl, Or.inr ⟨selectorMap, hm, hl⟩⟩
          · intro _
            simp only [GetDomElementByIndex, hmap, hl]
            exact Option.some_ne_none _
        | some element =>
          constructor
          · intro h
            exact absurd (by simp only [GetDomElementByIndex, hmap, hl]) h
          · rintro (h | ⟨st, hst, h | ⟨m, hm1, hl1⟩⟩)
            · cases h
            · cases hst
              rw [hm] at h
              cases h
            · cases hst
              rw [hm] at hm1
              cases hm1
              rw [hl] at hl1
              cases hl1
  · cases hs : session.CachedState with
    | none => simp [GetDomElementByIndex, GetSelectorMap, hs, indexErrorMessage]
    | some state =>
      cases hm : state.SelectorMap with
      | none => simp [GetDomElementByIndex, GetSelectorMap, hs, hm, indexErrorMessage]
      | some selectorMap =>
        cases hl : List.lookup index selectorMap with
        | none => simp [GetDomElementByIndex, GetSelectorMap, hs, hm, hl, indexErrorMessage]
        | some element => simp [GetDomElementByIndex, GetSelectorMap, hs, hm, hl]

/-- C7 on the sample session: index 1 resolves to element 2, index 7 to the error naming
index 7. -/
theorem getDomElementByIndex_resolves_witness :
    GetDomElementByIndex cachedSession 1 = (some 2, none) ∧
    GetDomElementByIndex cachedSession 7
      = (none, some (GoError.errorf ("element with index " ++ toString (7 : Int) ++
          " does not exist - retry or use alternative actions"))) :=
  ⟨(getDomElementByIndex_resolves cachedSession 1).1 snapshotA [(0, 1), (1, 2)] 2 rfl rfl rfl,
   (getDomElementByIndex_resolves cachedSession 7).2.2 (by decide)⟩

/-! ## Element locator -/

/-- A frame scope passes through at least one frame. -/
theorem frameLocator_selectors_ne_nil (f : FrameLocator) : f.frameSelectors ≠ [] := by
  cases f with
  | ofPage p s => simp [FrameLocator.frameSelectors]
  | ofFrame scope s => simp [FrameLocator.frameSelectors]

/-- A frame scope is determined by its page and its frame selectors. -/
theorem frameLocator_ext :
    ∀ f g : FrameLocator, f.page = g.page → f.frameSelectors = g.frameSelectors → f = g := by
  intro f
  induction f with
  | ofPage p s =>
    intro g hp hs
    cases g with
    | ofPage q t =>
      simp only [FrameLocator.page, FrameLocator.frameSelectors, List.cons.injEq,
        and_true] at hp hs
      rw [hp, hs]
    | ofFrame scope t =>
      exfalso
      have h : [s] = scope.frameSelectors ++ [t] := hs
      have hlen := congrArg List.length h
      have hne := frameLocator_selectors_ne_nil scope
      have hpos : 0 < scope.frameSelectors.length := List.length_pos.mpr hne
      simp only [List.length_cons, List.length_nil, List.length_append] at hlen
      omega
  | ofFrame scope s ih =>
    intro g hp hs
    cases g with
    | ofPage q t =>
      exfalso
      have h : scope.frameSelectors ++ [s] = [t] := hs
      have hlen := congrArg List.length h
      have hne := frameLocator_selectors_ne_nil scope
      have hpos : 0 < scope.frameSelectors.length := List.length_pos.mpr hne
      simp only [List.length_cons, List.length_nil, List.length_append] at hlen
      omega
    | ofFrame scope2 t =>
      have h : scope.frameSelectors ++ [s] = scope2.frameSelectors ++ [t] := hs
      obtain ⟨h1, h2⟩ := List.append_inj' h rfl
      have h3 : s = t := by simpa using h2
      rw [ih scope2 hp h1, h3]

/-- A locator is determined by its page, its frame selectors and its final selector. -/
theorem locator_ext (a b : Locator) (hp : a.page = b.page)
    (hf : a.frameSelectors = b.frameSelectors) (hs : a.selector = b.selector) : a = b := by
  cases a with
  | ofPage p s =>
    cases b with
    | ofPage q t =>
      simp only [Locator.page, Locator.selector] at hp hs
      rw [hp, hs]
    | ofFrame scope t =>
      exact absurd hf.symm (frameLocator_selectors_ne_nil scope)
  | ofFrame scope s =>
    cases b with
    | ofPage q t =>
      exact absurd hf (frameLocator_selectors_ne_nil scope)
    | ofFrame scope2 t =>
      simp only [Locator.selector] at hs
      rw [frameLocator_ext scope scope2 hp hf, hs]

theorem enterFrames_selectors (currentPage : Page) (css : DOMElementNode → String) :
    ∀ (iframes : List DOMElementNode) (start : Option FrameLocator),
      scopeSelectors (iframes.foldl
          (fun currentFrame parent => enterFrame currentPage currentFrame (css parent)) start)
        = scopeSelectors start ++ iframes.map css := by
  intro iframes
  induction iframes with
  | nil => intro start; simp
  | cons a rest ih =>
    intro start
    rw [List.foldl_cons, ih]
    cases start with
    | none => simp [enterFrame, scopeSelectors, FrameLocator.frameSelectors]
    | some frame => simp [enterFrame, scopeSelectors, FrameLocator.frameSelectors]

theorem enterFrames_page (currentPage : Page) (css : DOMElementNode → String) :
    ∀ (iframes : List DOMElementNode) (start : Option FrameLocator),
      (∀ frame, start = some frame → frame.page = currentPage) →
      ∀ frame, iframes.foldl
          (fun currentFrame parent => enterFrame currentPage currentFrame (css parent)) start
        = some frame → frame.page = currentPage := by
  intro iframes
  induction iframes with
  | nil => intro start h frame hf; exact h frame hf
  | cons a rest ih =>
    intro start h
    rw [List.foldl_cons]
    apply ih
    intro frame hf
    cases start with
    | none =>
      simp only [enterFrame, Option.some.injEq] at hf
      subst hf
      rfl
    | some f0 =>
      simp only [enterFrame, Option.some.injEq] at hf
      subst hf
      exact h f0 rfl

theorem getLocateElement_parts (enhancedCss : DOMElementNode → Bool → String)
    (config : BrowserConfig) (currentPage : Page) (element : DOMElementNode) :
    (GetLocateElement enhancedCss config currentPage element).page = currentPage ∧
    (GetLocateElement enhancedCss config currentPage element).frameSelectors
      = (iframeAncestors element).map
          (fun a => enhancedCss a (GetDefaultValue config "include_dynamic_attributes" true)) ∧
    (GetLocateElement enhancedCss config currentPage element).selector
      = enhancedCss element (GetDefaultValue config "include_dynamic_attributes" true) := by
  have hsel := enterFrames_selectors currentPage
    (fun a => enhancedCss a (GetDefaultValue config "include_dynamic_attributes" true))
    (iframeAncestors element) none
  have hpage := enterFrames_page currentPage
    (fun a => enhancedCss a (GetDefaultValue config "include_dynamic_attributes" true))
    (iframeAncestors element) none (fun _ h => by cases h)
  unfold GetLocateElement
  simp only [collectParents_reverse]
  unfold iframeAncestors at hsel hpage ⊢
  revert hsel hpage
  generalize List.foldl _ none _ = scope
  intro hsel hpage
  cases scope with
  | none =>
    simp only [scopeSelectors, List.nil_append] at hsel
    exact ⟨rfl, hsel, rfl⟩
  | some frame =>
    simp only [scopeSelectors, List.nil_append] at hsel
    exact ⟨hpage frame rfl, hsel, rfl⟩

/-- C8: the locator `GetLocateElement` returns is rooted in the current page, passes
through exactly one frame-scoped lookup per proper ancestor with tag "iframe", outermost
first, each with that ancestor's synthesized selector, and evaluates the element's own
selector in the innermost scope; with no iframe ancestor it is a direct lookup on the page,
with two it is a two-stage frame-scoped chain. -/
theorem getLocateElement_frame_chain (enhancedCss : DOMElementNode → Bool → String)
    (config : BrowserConfig) (currentPage : Page) (element : DOMElementNode) :
    (GetLocateElement enhancedCss config currentPage element).page = currentPage ∧
    (GetLocateElement enhancedCss config currentPage element).frameSelectors
      = (iframeAncestors element).map
          (fun a => enhancedCss a (GetDefaultValue config "include_dynamic_attributes" true)) ∧
    (GetLocateElement enhancedCss config currentPage element).frameSelectors.length
      = (iframeAncestors element).length ∧
    (GetLocateElement enhancedCss config currentPage element).selector
      = enhancedCss element (GetDefaultValue config "include_dynamic_attributes" true) ∧
    (iframeAncestors element = [] →
      GetLocateElement enhancedCss config currentPage element
        = Locator.ofPage currentPage
            (enhancedCss element (GetDefaultValue config "include_dynamic_attributes" true))) ∧
    (∀ a b, iframeAncestors element = [a, b] →
      GetLocateElement enhancedCss config currentPage element
        = Locator.ofFrame
            (FrameLocator.ofFrame
              (FrameLocator.ofPage currentPage
                (enhancedCss a (GetDefaultValue config "include_dynamic_attributes" true)))
              (enhancedCss b (GetDefaultValue config "include_dynamic_attributes" true)))
            (enhancedCss element (GetDefaultValue config "include_dynamic_attributes" true))) := by
  obtain ⟨h1, h2, h3⟩ := getLocateElement_parts enhancedCss config currentPage element
  refine ⟨h1, h2, ?_, h3, ?_, ?_⟩
  · rw [h2, List.length_map]
  · intro h
    unfold iframeAncestors at h
    simp only [GetLocateElement, collectParents_reverse, h, List.foldl_nil]
  · intro a b h
    unfold iframeAncestors at h
    simp only [GetLocateElement, collectParents_reverse, h, List.foldl_cons, List.foldl_nil,
      enterFrame]

/-- C8 on the sample elements: an element without ancestors and a button two iframes
deep. -/
theorem getLocateElement_frame_chain_witness :
    GetLocateElement flagCss [] tab0 fileInput = Locator.ofPage tab0 "input[dynamic]" ∧
    GetLocateElement flagCss [] tab0 framedButton
      = Locator.ofFrame
          (FrameLocator.ofFrame (FrameLocator.ofPage tab0 "iframe[dynamic]") "iframe[dynamic]")
          "button[dynamic]" :=
  ⟨(getLocateElement_frame_chain flagCss [] tab0 fileInput).2.2.2.2.1 rfl,
   (getLocateElement_frame_chain flagCss [] tab0 framedButton).2.2.2.2.2
      outerFrame innerFrame rfl⟩

/-- C9 as stated fails: with an empty configuration, which has no
`include_dynamic_attributes` entry, every selector of the chain is synthesized with the
flag `true`, not `false`. -/
theorem getLocateElement_default_counterexample :
    List.lookup "include_dynamic_attributes" ([] : BrowserConfig) = none ∧
    GetLocateElement flagCss [] tab0 framedButton
      = Locator.ofFrame
          (FrameLocator.ofFrame (FrameLocator.ofPage tab0 (flagCss outerFrame true))
            (flagCss innerFrame true))
          (flagCss framedButton true) ∧
    GetLocateElement flagCss [] tab0 framedButton
      ≠ Locator.ofFrame
          (FrameLocator.ofFrame (FrameLocator.ofPage tab0 (flagCss outerFrame false))
            (flagCss innerFrame false))
          (flagCss framedButton false) := by
  decide

/-- C9 amended: all selectors `GetLocateElement` synthesizes, for the iframe ancestors and
for the element, are built with one flag; the flag is `true` for every configuration
without an `include_dynamic_attributes` entry, and it is `false` exactly when the
configuration sets `include_dynamic_attributes` to the boolean `false`. -/
theorem getLocateElement_dynamic_flag (enhancedCss : DOMElementNode → Bool → String)
    (config : BrowserConfig) (currentPage : Page) (element : DOMElementNode) :
    ∃ includeDynamicAttributes : Bool,
      (GetLocateElement enhancedCss config currentPage element).frameSelectors
        = (iframeAncestors element).map (fun a => enhancedCss a includeDynamicAttributes) ∧
      (GetLocateElement enhancedCss config currentPage element).selector
        = enhancedCss element includeDynamicAttributes ∧
      (List.lookup "include_dynamic_attributes" config = none →
        includeDynamicAttributes = true) ∧
      (includeDynamicAttributes = false ↔
        List.lookup "include_dynamic_attributes" config = some (ConfigValue.bool false)) := by
  obtain ⟨_, h2, h3⟩ := getLocateElement_parts enhancedCss config currentPage element
  refine ⟨GetDefaultValue config "include_dynamic_attributes" true, h2, h3, ?_, ?_⟩
  · intro h
    simp [GetDefaultValue, h]
  · unfold GetDefaultValue
    split
    · rename_i b hb
      rw [hb]
      simp
    · rename_i hb
      constructor
      · intro h; cases h
      · intro h
        exact absurd h (hb false)

/-- C9 amended, on the empty configuration and the button two iframes deep. -/
theorem getLocateElement_dynamic_flag_witness :
    ∃ includeDynamicAttributes : Bool,
      (GetLocateElement flagCss [] tab0 framedButton).frameSelectors
        = (iframeAncestors framedButton).map (fun a => flagCss a includeDynamicAttributes) ∧
      (GetLocateElement flagCss [] tab0 framedButton).selector
        = flagCss framedButton includeDynamicAttributes ∧
      (List.lookup "include_dynamic_attributes" ([] : BrowserConfig) = none →
        includeDynamicAttributes = true) ∧
      (includeDynamicAttributes = false ↔
        List.lookup "include_dynamic_attributes" ([] : BrowserConfig)
          = some (ConfigValue.bool false)) :=
  getLocateElement_dynamic_flag flagCss [] tab0 framedButton

/-- Whatever the driver's click reports, `ClickElementNode` returns a nil path and a nil
error. -/
theorem clickElementNode_returns_nil (enhancedCss : DOMElementNode → Bool → String)
    (config : BrowserConfig) (click : ClickDriver) (page : Page)
    (elementNode : DOMElementNode) :
    ClickElementNode enhancedCss config click page elementNode = (none, none) := rfl

/-- C10 at a failing input: the click on the locator of the button times out, and
`ClickElementNode` still returns a nil error. -/
theorem clickElementNode_failing_click :
    failingClick (GetLocateElement flagCss [] tab0 framedButton)
      = some "Timeout 1500ms exceeded." ∧
    ClickElementNode flagCss [] failingClick tab0 framedButton = (none, none) := by
  decide

/-! ## Current page resolution -/

theorem findPageByUrl_some (targetUrl : Option String) (p : Page) :
    ∀ pages : List Page, findPageByUrl targetUrl pages = some p →
      p ∈ pages ∧ targetUrl = some p.url := by
  intro pages
  induction pages with
  | nil => intro h; cases h
  | cons q rest ih =>
    intro h
    rw [findPageByUrl] at h
    by_cases hq : (some q.url == targetUrl) = true
    · rw [if_pos hq] at h
      cases h
      exact ⟨List.mem_cons_self _ _, (beq_iff_eq.mp hq).symm⟩
    · rw [if_neg hq] at h
      exact ⟨List.mem_cons_of_mem _ (ih h).1, (ih h).2⟩

theorem findPageByUrl_none (targetUrl : Option String) :
    ∀ pages : List Page, findPageByUrl targetUrl pages = none →
      ∀ p ∈ pages, targetUrl ≠ some p.url := by
  intro pages
  induction pages with
  | nil => intro _ p hp; cases hp
  | cons q rest ih =>
    intro h p hp
    rw [findPageByUrl] at h
    by_cases hq : (some q.url == targetUrl) = true
    · rw [if_pos hq] at h
      cases h
    · rw [if_neg hq] at h
      rcases List.mem_cons.mp hp with rfl | hmem
      · intro heq
        exact hq (beq_iff_eq.mpr heq.symm)
      · exact ih h p hmem

theorem findTargetPage_some (targetId : String) (pages : List Page) (p : Page) :
    ∀ targets : List CdpTarget, findTargetPage targetId pages targets = some p →
      ∃ target ∈ targets,
        target.targetId = some targetId ∧ target.url = some p.url ∧ p ∈ pages := by
  intro targets
  induction targets with
  | nil => intro h; cases h
  | cons t rest ih =>
    intro h
    rw [findTargetPage] at h
    by_cases ht : (t.targetId == some targetId) = true
    · rw [if_pos ht] at h
      cases hf : findPageByUrl t.url pages with
      | some q =>
        rw [hf] at h
        cases h
        obtain ⟨hmem, hurl⟩ := findPageByUrl_some t.url p pages hf
        exact ⟨t, List.mem_cons_self _ _, beq_iff_eq.mp ht, hurl, hmem⟩
      | none =>
        rw [hf] at h
        obtain ⟨target, hmem, h1⟩ := ih h
        exact ⟨target, List.mem_cons_of_mem _ hmem, h1⟩
    · rw [if_neg ht] at h
      obtain ⟨target, hmem, h1⟩ := ih h
      exact ⟨target, List.mem_cons_of_mem _ hmem, h1⟩

theorem findTargetPage_none (targetId : String) (pages : List Page) :
    ∀ targets : List CdpTarget, findTargetPage targetId pages targets = none →
      ∀ target ∈ targets, target.targetId = some targetId →
        ∀ p ∈ pages, target.url ≠ some p.url := by
  intro targets
  induction targets with
  | nil => intro _ target hmem; cases hmem
  | cons t rest ih =>
    intro h target hmem hid p hp
    rw [findTargetPage] at h
    by_cases ht : (t.targetId == some targetId) = true
    · rw [if_pos ht] at h
      cases hf : findPageByUrl t.url pages with
      | some q =>
        rw [hf] at h
        cases h
      | none =>
        rw [hf] at h
        rcases List.mem_cons.mp hmem with rfl | hrest
        · exact findPageByUrl_none _ pages hf p hp
        · exact ih h target hrest hid p hp
    · rw [if_neg ht] at h
      rcases List.mem_cons.mp hmem with rfl | hrest
      · exact absurd (beq_iff_eq.mpr hid) ht
      · exact ih h target hrest hid p hp

theorem trackedTargetPage_some (cdpReply : Option CdpResult) (bc : BrowserContext)
    (session : BrowserSession) (p : Page)
    (h : trackedTargetPage cdpReply bc session.Pages = some (some p)) :
    TrackedMatch cdpReply bc session p := by
  unfold trackedTargetPage at h
  by_cases hc : configSet bc.Browser.Config "cdp_url" = true
  · rw [if_pos hc] at h
    cases hid : bc.State.TargetId with
    | none => rw [hid] at h; cases h
    | some targetId =>
      rw [hid] at h
      cases ht : getCdpTargets cdpReply bc with
      | none => rw [ht] at h; cases h
      | some targets =>
        rw [ht] at h
        simp only [Option.some.injEq] at h
        exact ⟨hc, targetId, hid, targets, ht, findTargetPage_some targetId _ p _ h⟩
  · rw [if_neg hc] at h
    cases h

theorem trackedTargetPage_none (cdpReply : Option CdpResult) (bc : BrowserContext)
    (session : BrowserSession)
    (h : trackedTargetPage cdpReply bc session.Pages = some none) :
    ¬ ∃ p, TrackedMatch cdpReply bc session p := by
  rintro ⟨p, hc, targetId, hid, targets, ht, target, hmem, htid, hurl, hp⟩
  unfold trackedTargetPage at h
  rw [if_pos hc, hid] at h
  simp only [ht, Option.some.injEq] at h
  exact findTargetPage_none targetId _ _ h target hmem htid p hp hurl

/-- The first block of `getCurrentPage` panics exactly when a remote endpoint is
configured, a target id is stored and `getCdpTargets` panics. -/
theorem trackedTargetPage_panic (cdpReply : Option CdpResult) (bc : BrowserContext)
    (pages : List Page) :
    trackedTargetPage cdpReply bc pages = none ↔
      configSet bc.Browser.Config "cdp_url" = true ∧ bc.State.TargetId ≠ none ∧
        getCdpTargets cdpReply bc = none := by
  unfold trackedTargetPage
  by_cases hc : configSet bc.Browser.Config "cdp_url" = true
  · rw [if_pos hc]
    cases hid : bc.State.TargetId with
    | none => simp
    | some targetId =>
      cases ht : getCdpTargets cdpReply bc with
      | none => simp [hc]
      | some targets => simp
  · rw [if_neg hc]
    simp [hc]

theorem usableActiveTab_some (bc : BrowserContext) (session : BrowserSession) (tab : Page) :
    usableActiveTab bc session = some tab ↔ ActiveTabUsable bc session tab := by
  unfold usableActiveTab ActiveTabUsable
  cases hb : bc.ActiveTab with
  | none => simp
  | some t =>
    by_cases hc : (!t.closed && session.Pages.contains t) = true
    · simp only [if_pos hc]
      simp only [Bool.and_eq_true, Bool.not_eq_true', List.elem_eq_mem, decide_eq_true_eq] at hc
      constructor
      · intro h
        cases h
        exact ⟨rfl, hc.1, hc.2⟩
      · rintro ⟨h1, _, _⟩
        exact h1
    · simp only [if_neg hc]
      simp only [Bool.and_eq_true, Bool.not_eq_true', List.elem_eq_mem, decide_eq_true_eq] at hc
      constructor
      · intro h; cases h
      · rintro ⟨h1, h2, h3⟩
        cases h1
        exact absurd ⟨h2, h3⟩ hc

theorem usableActiveTab_none (bc : BrowserContext) (session : BrowserSession)
    (h : usableActiveTab bc session = none) : ¬ ∃ tab, ActiveTabUsable bc session tab := by
  rintro ⟨tab, htab⟩
  rw [(usableActiveTab_some bc session tab).mpr htab] at h
  cases h

theorem filter_getLast_of_split (before after : List Page) (p : Page)
    (hp : nonExtensionUrl p.url = true) (hafter : ∀ q ∈ after, nonExtensionUrl q.url = false) :
    ((before ++ p :: after).filter (fun page => nonExtensionUrl page.url)).getLast? = some p := by
  have h1 : after.filter (fun page => nonExtensionUrl page.url) = [] := by
    rw [List.filter_eq_nil_iff]
    intro q hq
    rw [hafter q hq]
    exact Bool.false_ne_true
  have h2 : (p :: after).filter (fun page => nonExtensionUrl page.url) = [p] := by
    rw [List.filter_cons_of_pos (by simpa using hp), h1]
  rw [List.filter_append, h2]
  simp

/-- Unless `getCdpTargets` panics, `getCurrentPage` resolves the current page in a fixed
order.  When a page of the session matches a listed target carrying the stored target id,
such a page is returned before anything else.  When none does, the previously active tab
is returned if it is set, not closed and among the session's pages; otherwise the last
page of the enumeration whose URL starts with neither "chrome-extension://" nor
"chrome://"; otherwise a new page is opened, and a new page is opened only when none of
the three exists. -/
theorem getCurrentPage_order (cdpReply : Option CdpResult) (newPage : Option Page)
    (bc : BrowserContext) (session : BrowserSession)
    (hnp : trackedTargetPage cdpReply bc session.Pages ≠ none) :
    ((∃ p, TrackedMatch cdpReply bc session p) →
      ∃ p, TrackedMatch cdpReply bc session p ∧
        getCurrentPage cdpReply newPage bc session = CurrentPageOutcome.found p) ∧
    ((¬ ∃ p, TrackedMatch cdpReply bc session p) →
      (∀ tab, ActiveTabUsable bc session tab →
        getCurrentPage cdpReply newPage bc session = CurrentPageOutcome.found tab) ∧
      ((¬ ∃ tab, ActiveTabUsable bc session tab) →
        (∀ before p after, session.Pages = before ++ p :: after →
          nonExtensionUrl p.url = true → (∀ q ∈ after, nonExtensionUrl q.url = false) →
          getCurrentPage cdpReply newPage bc session = CurrentPageOutcome.found p) ∧
        ((∀ q ∈ session.Pages, nonExtensionUrl q.url = false) →
          getCurrentPage cdpReply newPage bc session
            = match newPage with
              | some page => CurrentPageOutcome.created page
              | none => CurrentPageOutcome.newSession))) ∧
    (∀ page, getCurrentPage cdpReply newPage bc session = CurrentPageOutcome.created page →
      (¬ ∃ p, TrackedMatch cdpReply bc session p) ∧
      (¬ ∃ tab, ActiveTabUsable bc session tab) ∧
      ∀ q ∈ session.Pages, nonExtensionUrl q.url = false) := by
  refine ⟨?_, ?_, ?_⟩
  · intro hex
    cases ht : trackedTargetPage cdpReply bc session.Pages with
    | none => exact absurd ht hnp
    | some tracked =>
      cases tracked with
      | none => exact absurd hex (trackedTargetPage_none cdpReply bc session ht)
      | some p =>
        refine ⟨p, trackedTargetPage_some cdpReply bc session p ht, ?_⟩
        simp only [getCurrentPage, ht]
  · intro hno
    have ht : trackedTargetPage cdpReply bc session.Pages = some none := by
      cases h : trackedTargetPage cdpReply bc session.Pages with
      | none => exact absurd h hnp
      | some tracked =>
        cases tracked with
        | none => rfl
        | some p => exact absurd ⟨p, trackedTargetPage_some cdpReply bc session p h⟩ hno
    refine ⟨?_, ?_⟩
    · intro tab htab
      simp only [getCurrentPage, ht, (usableActiveTab_some bc session tab).mpr htab]
    · intro hnoact
      have ha : usableActiveTab bc session = none := by
        cases h : usableActiveTab bc session with
        | none => rfl
        | some tab => exact absurd ⟨tab, (usableActiveTab_some bc session tab).mp h⟩ hnoact
      refine ⟨?_, ?_⟩
      · intro before p after hsplit hp hafter
        have hl := filter_getLast_of_split before after p hp hafter
        rw [← hsplit] at hl
        simp only [getCurrentPage, ht, ha, hl]
      · intro hall
        have hnil : session.Pages.filter (fun page => nonExtensionUrl page.url) = [] := by
          rw [List.filter_eq_nil_iff]
          intro q hq
          rw [hall q hq]
          exact Bool.false_ne_true
        simp only [getCurrentPage, ht, ha, hnil, List.getLast?_nil]
  · intro page h
    unfold getCurrentPage at h
    cases ht : trackedTargetPage cdpReply bc session.Pages with
    | none => simp only [ht] at h; cases h
    | some tracked =>
      cases tracked with
      | some p => simp only [ht] at h; cases h
      | none =>
        cases ha : usableActiveTab bc session with
        | some tab => simp only [ht, ha] at h; cases h
        | none =>
          cases hl : (session.Pages.filter (fun page => nonExtensionUrl page.url)).getLast? with
          | some p => simp only [ht, ha, hl] at h; cases h
          | none =>
            refine ⟨trackedTargetPage_none cdpReply bc session ht,
              usableActiveTab_none bc session ha, ?_⟩
            have hnil := List.getLast?_eq_none_iff.mp hl
            intro q hq
            have := List.filter_eq_nil_iff.mp hnil q hq
            simpa using this

/-- With a stored target id, a remote endpoint configured, a session with an open page and
a reply the assertions of `getCdpTargets` reject, `getCurrentPage` panics, whatever the
active tab and the pages are. -/
theorem getCurrentPage_of_other (newPage : Option Page) (bc : BrowserContext)
    (session : BrowserSession) (hs : bc.Session = some session)
    (hc : configSet bc.Browser.Config "cdp_url" = true) (hid : bc.State.TargetId ≠ none)
    (hp : session.Pages ≠ []) :
    getCurrentPage (some CdpResult.other) newPage bc session
      = CurrentPageOutcome.assertionPanic := by
  have ht : trackedTargetPage (some CdpResult.other) bc session.Pages = none :=
    (trackedTargetPage_panic _ bc _).mpr ⟨hc, hid, getCdpTargets_of_other bc session hs hc hp⟩
  simp only [getCurrentPage, ht]

/-- C11 at a failing input: the tracker has a `cdp_url` configured and a stored target id,
its active tab is open and among the three pages of the session, and the result of
`Target.getTargets` is a value the assertions of `getCdpTargets` reject.  No page matches
a tracked target, yet `getCurrentPage` does not return the active tab: it panics. -/
theorem getCurrentPage_cdp_panic :
    ActiveTabUsable cdpContext threeTabSession tab0 ∧
    (¬ ∃ p, TrackedMatch (some CdpResult.other) cdpContext threeTabSession p) ∧
    getCurrentPage (some CdpResult.other) none cdpContext threeTabSession
      = CurrentPageOutcome.assertionPanic := by
  refine ⟨⟨rfl, rfl, by decide⟩, ?_, by decide⟩
  rintro ⟨p, _, targetId, _, targets, ht, _⟩
  have hnone : getCdpTargets (some CdpResult.other) cdpContext = none := by decide
  rw [hnone] at ht
  cases ht

/-- The block at the end of `initializeSession` stores the URL of the active page, not the
id of its target: with the targets of `cdpTargets` listed and the first tab active, the
stored id becomes the URL of that tab although its target is "target-a", and the first
block of `getCurrentPage` then finds no page for it. -/
theorem storeInitialTargetId_stores_url :
    storeInitialTargetId (some (CdpResult.targetInfos cdpTargets)) untrackedCdpContext tab0
      = some { TargetId := some "https://a.example/" } ∧
    trackedTargetPage (some (CdpResult.targetInfos cdpTargets))
        { untrackedCdpContext with State := { TargetId := some "https://a.example/" } }
        threeTabSession.Pages
      = some none ∧
    trackedTargetPage (some (CdpResult.targetInfos cdpTargets))
        { untrackedCdpContext with State := { TargetId := some "target-a" } }
        threeTabSession.Pages
      = some (some tab0) := by
  decide

/-! ## Closing the tracker -/

/-- The condition under which `Close` closes the driver context. -/
theorem keepAliveAssertion_close (config : BrowserConfig) :
    (((keepAliveAssertion config).2 && !(keepAliveAssertion config).1)
        || !(keepAliveAssertion config).2) = true ↔
      List.lookup "keep_alive" config ≠ some (ConfigValue.bool true) := by
  unfold keepAliveAssertion
  split
  · rename_i keepAlive h
    rw [h]
    cases keepAlive <;> simp
  · rename_i h
    simp only [Bool.false_and, Bool.not_false, Bool.or_true, true_iff]
    exact h true

/-- C12: for a tracker that holds a session, `Close` leaves the session reference, the
active tab and the page-event handler cleared, and closes the driver context exactly when
the `keep_alive` entry is not the boolean `true`; for a tracker without a session `Close`
changes nothing, and a second `Close` leaves the result of the first as it is. -/
theorem close_clears (bc : BrowserContext) :
    (∀ session, bc.Session = some session →
      (Close bc).1.Session = none ∧ (Close bc).1.ActiveTab = none ∧
      (Close bc).1.pageEventHandler = false ∧
      ((Close bc).2.closedContext = true ↔
        List.lookup "keep_alive" bc.Config ≠ some (ConfigValue.bool true)) ∧
      (Close bc).2.removedListener = bc.pageEventHandler) ∧
    (bc.Session = none →
      Close bc = (bc, { removedListener := false, closedContext := false })) ∧
    Close (Close bc).1 = ((Close bc).1, { removedListener := false, closedContext := false }) := by
  refine ⟨?_, ?_, ?_⟩
  · intro session hs
    have hk := keepAliveAssertion_close bc.Config
    unfold Close
    rw [hs]
    exact ⟨rfl, rfl, rfl, hk, rfl⟩
  · intro hs
    unfold Close
    rw [hs]
  · cases hs : bc.Session with
    | none =>
      have h1 : Close bc = (bc, { removedListener := false, closedContext := false }) := by
        unfold Close
        rw [hs]
      rw [h1]
      exact h1
    | some session =>
      have h1 : (Close bc).1.Session = none := by
        unfold Close
        rw [hs]
      generalize (Close bc).1 = bc1 at h1
      unfold Close
      rw [h1]

/-- C12 on a tracker with `keep_alive` set and on one without the entry. -/
theorem close_clears_witness :
    ((Close keepAliveContext).1.Session = none ∧ (Close keepAliveContext).1.ActiveTab = none ∧
      (Close keepAliveContext).1.pageEventHandler = false ∧
      ((Close keepAliveContext).2.closedContext = true ↔
        List.lookup "keep_alive" keepAliveContext.Config ≠ some (ConfigValue.bool true)) ∧
      (Close keepAliveContext).2.removedListener = keepAliveContext.pageEventHandler) ∧
    ((Close threeTabContext).1.Session = none ∧ (Close threeTabContext).1.ActiveTab = none ∧
      (Close threeTabContext).1.pageEventHandler = false ∧
      ((Close threeTabContext).2.closedContext = true ↔
        List.lookup "keep_alive" threeTabContext.Config ≠ some (ConfigValue.bool true)) ∧
      (Close threeTabContext).2.removedListener = threeTabContext.pageEventHandler) :=
  ⟨(close_clears keepAliveContext).1 threeTabSession rfl,
   (close_clears threeTabContext).1 threeTabSession rfl⟩

/-! ## Scroll position -/

/-- Inside the 64-bit range Go `int` arithmetic is exact. -/
theorem wrapInt64_of_range (x : Int) (h1 : -(2 ^ 63) ≤ x) (h2 : x < 2 ^ 63) :
    wrapInt64 x = x := by
  unfold wrapInt64
  omega

/-- C13: for integer readings (of magnitude below `2 ^ 61`, so that no Go `int`
overflows) `GetScrollInfo` returns `pixelsAbove = scrollY` and
`pixelsBelow = totalHeight - (scrollY + viewportHeight)` with a nil error, so that
`pixelsAbove + viewportHeight + pixelsBelow = totalHeight` and `pixelsBelow > 0` exactly
when the content extends below the viewport; when one of the three reads fails it returns
`(0, 0)` and the error of the first read that failed. -/
theorem getScrollInfo_pixels (scrollY viewportHeight totalHeight : Int)
    (hs : |scrollY| < 2 ^ 61) (hv : |viewportHeight| < 2 ^ 61) (ht : |totalHeight| < 2 ^ 61) :
    (GetScrollInfo (Except.ok (JsValue.int scrollY)) (Except.ok (JsValue.int viewportHeight))
        (Except.ok (JsValue.int totalHeight))
      = ScrollOutcome.returned scrollY (totalHeight - (scrollY + viewportHeight)) none ∧
    scrollY + viewportHeight + (totalHeight - (scrollY + viewportHeight)) = totalHeight ∧
    (totalHeight - (scrollY + viewportHeight) > 0 ↔
      scrollY + viewportHeight < totalHeight)) ∧
    (∀ err v t, GetScrollInfo (Except.error err) v t
      = ScrollOutcome.returned 0 0 (some err)) ∧
    (∀ s err t, GetScrollInfo (Except.ok s) (Except.error err) t
      = ScrollOutcome.returned 0 0 (some err)) ∧
    (∀ s v err, GetScrollInfo (Except.ok s) (Except.ok v) (Except.error err)
      = ScrollOutcome.returned 0 0 (some err)) := by
  rw [abs_lt] at hs hv ht
  refine ⟨⟨?_, by omega, by omega⟩, fun _ _ _ => rfl, fun _ _ _ => rfl, fun _ _ _ => rfl⟩
  simp only [GetScrollInfo]
  rw [wrapInt64_of_range (scrollY + viewportHeight) (by omega) (by omega),
    wrapInt64_of_range _ (by omega) (by omega)]

/-- C13 on a page with 800 pixels below the fold. -/
theorem getScrollInfo_pixels_witness :
    GetScrollInfo (Except.ok (JsValue.int 0)) (Except.ok (JsValue.int 600))
        (Except.ok (JsValue.int 1400))
      = ScrollOutcome.returned 0 (1400 - (0 + 600)) none ∧
    (0 : Int) + 600 + (1400 - (0 + 600)) = 1400 ∧
    ((1400 : Int) - (0 + 600) > 0 ↔ (0 : Int) + 600 < 1400) :=
  (getScrollInfo_pixels 0 600 1400 (by decide) (by decide) (by decide)).1

/-! ## New pages -/

/-- The function `startsWith s p` holds exactly when `s` is `p` followed by some rest. -/
theorem startsWith_iff (s p : String) :
    startsWith s p = true ↔ ∃ rest : String, s = p ++ rest := by
  unfold startsWith
  rw [List.isPrefixOf_iff_prefix]
  constructor
  · rintro ⟨t, ht⟩
    refine ⟨String.mk t, ?_⟩
    apply String.ext
    rw [String.data_append]
    exact ht.symm
  · rintro ⟨rest, rfl⟩
    exact ⟨rest.toList, by rw [String.toList, String.toList, String.toList, String.data_append]⟩

/-- C14 as stated fails: a tracker with a `cdp_url` configured that holds no session keeps
its stored target id when a new page is observed. -/
theorem onPage_counterexample :
    configSet detachedCdpContext.Browser.Config "cdp_url" = true ∧
    detachedCdpContext.State.TargetId = some "target-b" ∧
    (onPage detachedCdpContext tab1).1.State.TargetId = some "target-b" := by
  decide

/-- C14 amended: when a new page is observed it becomes the active tab if its URL starts
with neither "chrome://" nor "chrome-extension://", and the active tab is unchanged
otherwise; the stored target id is set to none whenever the tracker holds a session, and
is unchanged when it holds none. -/
theorem onPage_effect (bc : BrowserContext) (page : Page) :
    (nonExtensionUrl page.url = true → (onPage bc page).1.ActiveTab = some page) ∧
    (nonExtensionUrl page.url = false → (onPage bc page).1.ActiveTab = bc.ActiveTab) ∧
    (bc.Session ≠ none → (onPage bc page).1.State.TargetId = none) ∧
    (bc.Session = none → (onPage bc page).1.State.TargetId = bc.State.TargetId) ∧
    (nonExtensionUrl page.url = true ↔
      ¬ (∃ rest : String, page.url = "chrome://" ++ rest) ∧
      ¬ (∃ rest : String, page.url = "chrome-extension://" ++ rest)) := by
  refine ⟨?_, ?_, ?_, ?_, ?_⟩
  · intro h
    unfold onPage
    simp only [h, if_true]
    cases bc.Session <;> rfl
  · intro h
    unfold onPage
    simp only [h, Bool.false_eq_true, if_false]
    cases bc.Session <;> rfl
  · intro h
    cases hs : bc.Session with
    | none => exact absurd hs h
    | some session =>
      cases hu : nonExtensionUrl page.url <;> simp [onPage, hu, hs]
  · intro h
    cases hu : nonExtensionUrl page.url <;> simp [onPage, hu, h]
  · unfold nonExtensionUrl
    rw [Bool.and_eq_true, Bool.not_eq_true', Bool.not_eq_true', ← Bool.not_eq_true,
      ← Bool.not_eq_true, startsWith_iff, startsWith_iff]
    exact And.comm

/-- C14 amended, on an ordinary page, an internal page, and trackers with and without a
session. -/
theorem onPage_effect_witness :
    (onPage threeTabContext tab1).1.ActiveTab = some tab1 ∧
    (onPage threeTabContext chromeTab).1.ActiveTab = threeTabContext.ActiveTab ∧
    (onPage cdpContext tab1).1.State.TargetId = none ∧
    (onPage detachedCdpContext tab1).1.State.TargetId = detachedCdpContext.State.TargetId :=
  ⟨(onPage_effect threeTabContext tab1).1 (by decide),
   (onPage_effect threeTabContext chromeTab).2.1 (by decide),
   (onPage_effect cdpContext tab1).2.2.1 (by decide),
   (onPage_effect detachedCdpContext tab1).2.2.2.1 rfl⟩

/-! ## Snapshot assembly -/

/-- When one of the three reads fails, `GetScrollInfo` returns `(0, 0)` and an error. -/
theorem getScrollInfo_of_failure (driver : DriverReplies)
    (h : (∃ err, driver.scrollY = Except.error err) ∨
      (∃ err, driver.innerHeight = Except.error err) ∨
      (∃ err, driver.scrollHeight = Except.error err)) :
    ∃ err, GetScrollInfo driver.scrollY driver.innerHeight driver.scrollHeight
      = ScrollOutcome.returned 0 0 (some err) := by
  cases hs : driver.scrollY with
  | error e => exact ⟨e, rfl⟩
  | ok s =>
    cases hv : driver.innerHeight with
    | error e => exact ⟨e, rfl⟩
    | ok v =>
      cases ht : driver.scrollHeight with
      | error e => exact ⟨e, rfl⟩
      | ok t =>
        rcases h with ⟨e, he⟩ | ⟨e, he⟩ | ⟨e, he⟩
        · rw [hs] at he; cases he
        · rw [hv] at he; cases he
        · rw [ht] at he; cases he

/-- When the scroll reads end without a panic and the tree build handed back a content,
`getUpdatedState` returns the snapshot assembled from the content, the page, the tab list,
the screenshot result and the scroll result. -/
theorem getUpdatedState_returned (encode : List Nat → String) (title : Page → String)
    (build : TreeBuild) (driver : DriverReplies) (session : BrowserSession) (page : Page)
    (content : DOMState) (above below : Int) (err : Option String)
    (hcontent : build.content = some content)
    (hscroll : GetScrollInfo driver.scrollY driver.innerHeight driver.scrollHeight
      = ScrollOutcome.returned above below err) :
    getUpdatedState encode title build driver session page
      = SnapshotOutcome.returned
          { ElementTree := content.ElementTree
            SelectorMap := content.SelectorMap
            Url := page.url
            Title := title page
            Tabs := GetTabsInfo title session
            Screenshot := (TakeScreenshot encode driver).1
            PixelAbove := above
            PixelBelow := below
            BrowserErrors := [] } := by
  simp only [getUpdatedState, hscroll, hcontent]

/-- A failed screenshot leaves the string pointer `TakeScreenshot` returns nil. -/
theorem takeScreenshot_of_failure (encode : List Nat → String) (driver : DriverReplies)
    (h : (TakeScreenshot encode driver).2 ≠ none) : (TakeScreenshot encode driver).1 = none := by
  revert h
  unfold TakeScreenshot
  cases driver.bringToFront with
  | some e => intro _; rfl
  | none =>
    cases driver.waitForLoadState with
    | some e => intro _; rfl
    | none =>
      cases driver.screenshot with
      | error e => intro _; rfl
      | ok bytes => intro h; exact absurd rfl h

/-- When a scroll read that succeeds does not hand back a Go `int`, `getUpdatedState`
panics, whatever the tree build and the screenshot did. -/
theorem getUpdatedState_of_scroll_panic (encode : List Nat → String) (title : Page → String)
    (build : TreeBuild) (driver : DriverReplies) (session : BrowserSession) (page : Page)
    (hscroll : GetScrollInfo driver.scrollY driver.innerHeight driver.scrollHeight
      = ScrollOutcome.assertionPanic) :
    getUpdatedState encode title build driver session page
      = SnapshotOutcome.assertionPanic := by
  simp only [getUpdatedState, hscroll]

/-- When the tree build hands back a nil content, `getUpdatedState` panics on reading
through it, unless the scroll reads have panicked before. -/
theorem getUpdatedState_of_nil_content (encode : List Nat → String) (title : Page → String)
    (build : TreeBuild) (driver : DriverReplies) (session : BrowserSession) (page : Page)
    (hcontent : build.content = none) :
    getUpdatedState encode title build driver session page = SnapshotOutcome.nilDereference ∨
    getUpdatedState encode title build driver session page
      = SnapshotOutcome.assertionPanic := by
  cases hs : GetScrollInfo driver.scrollY driver.innerHeight driver.scrollHeight with
  | assertionPanic =>
    exact Or.inr (getUpdatedState_of_scroll_panic encode title build driver session page hs)
  | returned above below err =>
    left
    simp only [getUpdatedState, hs, hcontent]

/-- C15 at two failing inputs.  A tree build that fails and hands back a nil content,
on a page where every driver call succeeds: `getUpdatedState` panics on
`content.ElementTree` instead of returning a snapshot with an empty tree.  A screenshot
that fails on a page whose `window.scrollY` is not an integer, after a complete tree build:
`getUpdatedState` panics on `scrollY.(int)` instead of returning a snapshot without
screenshot. -/
theorem getUpdatedState_panics :
    (failedBuild.err ≠ none ∧
      getUpdatedState sampleEncode sampleTitle failedBuild healthyDriver threeTabSession tab0
        = SnapshotOutcome.nilDereference) ∧
    ((TakeScreenshot sampleEncode fractionalScrollDriver).2 ≠ none ∧
      getUpdatedState sampleEncode sampleTitle completeBuild fractionalScrollDriver
          threeTabSession tab0
        = SnapshotOutcome.assertionPanic) := by
  decide

/-- On the sample pages with a complete tree build, a failed screenshot and a failed scroll
read each degrade their own fields only. -/
theorem getUpdatedState_degraded_samples :
    getUpdatedState sampleEncode sampleTitle completeBuild failingScreenshotDriver
        threeTabSession tab0
      = SnapshotOutcome.returned
          { ElementTree := 0, SelectorMap := some [(0, 1), (1, 2)], Url := tab0.url,
            Title := sampleTitle tab0, Tabs := GetTabsInfo sampleTitle threeTabSession,
            Screenshot := none, PixelAbove := 0, PixelBelow := 800, BrowserErrors := [] } ∧
    getUpdatedState sampleEncode sampleTitle completeBuild failingScrollDriver
        threeTabSession tab0
      = SnapshotOutcome.returned
          { ElementTree := 0, SelectorMap := some [(0, 1), (1, 2)], Url := tab0.url,
            Title := sampleTitle tab0, Tabs := GetTabsInfo sampleTitle threeTabSession,
            Screenshot := some (sampleEncode [137, 80, 78, 71]), PixelAbove := 0,
            PixelBelow := 0, BrowserErrors := [] } := by
  decide

/-! ## Termination of tab switching -/

/-- With no tab open the wrap-around loop never leaves a negative ordinal. -/
theorem wrapOrdinal_zero_of_neg :
    ∀ (fuel : Nat) (k : Int), k < 0 → wrapOrdinal 0 fuel k = none := by
  intro fuel
  induction fuel with
  | zero => intro k _; rfl
  | succ f ih =>
    intro k hk
    rw [wrapOrdinal, if_pos hk, add_zero]
    exact ih k hk

/-- With no tab open and a negative ordinal, `SwitchToTab` is still in its wrap-around
loop after any number of steps. -/
theorem switchToTab_no_tabs (cdpReply : Option CdpResult) (bc : BrowserContext)
    (session : BrowserSession) (k : Int) (fuel : Nat)
    (hs : bc.Session = some session) (hpages : session.Pages = []) (hk : k < 0) :
    SwitchToTab cdpReply bc k fuel = SwitchOutcome.outOfFuel := by
  unfold SwitchToTab
  simp only [hs, hpages, List.length_nil, Nat.cast_zero, ge_iff_le, not_le.mpr hk, if_false,
    wrapOrdinal_zero_of_neg fuel k hk]

/-- With at least one tab open `SwitchToTab` ends for every ordinal, once the loop has had
`-k + 1` evaluations of its condition: it returns, or it panics inside `getCdpTargets`. -/
theorem switchToTab_terminates_of_tabs (cdpReply : Option CdpResult)
    (bc : BrowserContext) (session : BrowserSession) (k : Int)
    (hs : bc.Session = some session) (hn : 1 ≤ session.Pages.length) :
    ∀ fuel, (-k).toNat + 1 ≤ fuel →
      (∃ bc1 err, SwitchToTab cdpReply bc k fuel = SwitchOutcome.returned bc1 err) ∨
      SwitchToTab cdpReply bc k fuel = SwitchOutcome.assertionPanic := by
  intro fuel hf
  have hlen : (1 : Int) ≤ (session.Pages.length : Int) := by exact_mod_cast hn
  by_cases hbig : (session.Pages.length : Int) ≤ k
  · refine Or.inl ⟨bc,
      some (GoError.browserError ("No tab found with page_id: " ++ toString k)), ?_⟩
    unfold SwitchToTab
    simp only [hs, ge_iff_le, hbig, if_true]
  · have hwrap : ∃ w, wrapOrdinal (session.Pages.length : Int) fuel k = some w ∧
        0 ≤ w ∧ w < (session.Pages.length : Int) := by
      by_cases hneg : k < 0
      · exact ⟨_, wrapOrdinal_of_neg _ hlen fuel k hneg hf,
          Int.emod_nonneg _ (by omega), Int.emod_lt_of_pos _ (by omega)⟩
      · obtain ⟨g, rfl⟩ : ∃ g, fuel = g + 1 := ⟨fuel - 1, by omega⟩
        exact ⟨k, wrapOrdinal_of_nonneg _ k g (by omega), by omega, by omega⟩
    obtain ⟨w, hw, h0, h1⟩ := hwrap
    by_cases hbad : configSet bc.Browser.Config "cdp_url" = true ∧
        cdpReply = some CdpResult.other
    · obtain ⟨hc, hr⟩ := hbad
      subst hr
      exact Or.inr
        (switchToTab_of_wrap_other bc session k w fuel hs (by omega) hw h0 h1 hc)
    · obtain ⟨bc1, page, hret, _, _⟩ :=
        switchToTab_of_wrap cdpReply bc session k w fuel hs (by omega) hw h0 h1
          (fun hc hr => hbad ⟨hc, hr⟩)
      exact Or.inl ⟨bc1, none, hret⟩

/-- C16 at a failing input: on a session with zero open tabs, `SwitchToTab (-1)` has not
returned after any number of loop steps. -/
theorem switchToTab_no_tabs_never_returns :
    (noTabContext.Session.map (fun session => session.Pages.length)) = some 0 ∧
    ∀ fuel : Nat, SwitchToTab none noTabContext (-1) fuel = SwitchOutcome.outOfFuel :=
  ⟨rfl, fun fuel => switchToTab_no_tabs none noTabContext _ (-1) fuel rfl rfl (by decide)⟩

end BrowserUse
